import Mathlib

/-!
Feedback relay (`supabase/functions/openai-feedback/index.ts`).

A shallow embedding of the edge function's request handler.  The handler is a
straight-line program over three collaborators (the JSON body reader of the
HTTP runtime, the Supabase client, and `fetch`), so it is modelled as a pure
function of a `World` that answers each collaborator call, returning the
ordered list of outbound calls it made together with its outcome.
-/

namespace OpenaiFeedback

/-! ## JavaScript values -/

/-- JSON data as JavaScript values: what `JSON.parse` produces and what the
store hands back.  An object is kept as its list of own properties.  A number
is finite (`num`) or one of the two infinities (`infinity`), which
`JSON.parse` yields for a literal out of range such as `1e400`. -/
inductive Json where
  | null : Json
  | bool (b : Bool) : Json
  | num (q : ℚ) : Json
  | infinity (negative : Bool) : Json
  | str (s : String) : Json
  | arr (items : List Json) : Json
  | obj (props : List (String × Json)) : Json

/-- A JavaScript value as the handler sees it: `undefined`, or JSON data. -/
inductive JsVal where
  | undefined : JsVal
  | json (j : Json) : JsVal

/-- Values that can be thrown while the handler runs. -/
inductive Thrown where
  /-- The `SyntaxError` of `req.json()` on a body that is not JSON. -/
  | syntaxError : Thrown
  /-- The `TypeError` of reading a property of `null` or `undefined`. -/
  | typeError : Thrown
  /-- A value raised by a `throw` statement of the handler. -/
  | value (v : JsVal) : Thrown
  /-- A failure raised inside a collaborator (`createClient`, `fetch`). -/
  | failure (msg : String) : Thrown

/-- Own property of a JSON object, the first entry under the key. -/
def Json.getField : Json → String → Option Json
  | .obj props, key => (props.find? (fun kv => kv.1 == key)).map (fun kv => kv.2)
  | _, _ => none

mutual
/-- The JSON document that `JSON.stringify` writes for a value, as the value
it denotes: a non-finite number is written as `null`, everything else as
itself, arrays and objects element by element. -/
def Json.written : Json → Json
  | .infinity _ => .null
  | .arr items => .arr (Json.writtenList items)
  | .obj props => .obj (Json.writtenProps props)
  | j => j
/-- The elements of an array, each as `JSON.stringify` writes it. -/
def Json.writtenList : List Json → List Json
  | [] => []
  | item :: items => item.written :: Json.writtenList items
/-- The properties of an object, each value as `JSON.stringify` writes it. -/
def Json.writtenProps : List (String × Json) → List (String × Json)
  | [] => []
  | (key, value) :: props => (key, value.written) :: Json.writtenProps props
end

/-- Property read `v.key`: a `TypeError` on `null` and `undefined`, the own
property of an object, `undefined` where there is none.  (The two keys the
handler reads, `prompt_id` and `messages`, are not inherited from any
built-in prototype.) -/
def JsVal.getProp : JsVal → String → Except Thrown JsVal
  | .undefined, _ => .error .typeError
  | .json .null, _ => .error .typeError
  | .json j, key =>
    match j.getField key with
    | some v => .ok (.json v)
    | none => .ok .undefined

/-- JavaScript truthiness, as tested by `if (error)`. -/
def JsVal.truthy : JsVal → Bool
  | .undefined => false
  | .json .null => false
  | .json (.bool b) => b
  | .json (.num q) => decide (q ≠ 0)
  | .json (.infinity _) => true
  | .json (.str s) => decide (s ≠ "")
  | .json (.arr _) => true
  | .json (.obj _) => true

/-! ## HTTP and collaborators -/

/-- The inbound HTTP request. -/
structure Request where
  method : String
  headers : List (String × String)
  body : String

/-- An HTTP response. -/
structure Response where
  status : Nat
  headers : List (String × String)
  body : String
  deriving DecidableEq

/-- The second argument of `new Response(body, init)`. -/
structure ResponseInit where
  status : Option Nat := none
  headers : List (String × String) := []

/-- A header name in lower case: header names are compared without regard to
case. -/
def headerName (name : String) : String :=
  String.mk (name.data.map Char.toLower)

/-- `new Response(body, init)` for a text body: the status defaults to 200;
the headers are those given in `init` and, the body being text,
`content-type: text/plain;charset=UTF-8` unless `init` names a content type. -/
def Response.create (body : String) (init : ResponseInit) : Response :=
  { status := init.status.getD 200
    headers :=
      if init.headers.any (fun h => headerName h.1 == "content-type") then init.headers
      else init.headers ++ [("content-type", "text/plain;charset=UTF-8")]
    body := body }

/-- The error half of a Supabase query result (`PostgrestError`). -/
structure PostgrestError where
  message : String
  details : String
  hint : String
  code : String
  deriving DecidableEq

/-- A `PostgrestError` as a JavaScript object. -/
def PostgrestError.toJson (e : PostgrestError) : Json :=
  .obj [("message", .str e.message), ("details", .str e.details),
        ("hint", .str e.hint), ("code", .str e.code)]

/-- The `{ data, error }` pair a Supabase query resolves to; `error` is a
`PostgrestError` or `null`. -/
structure StoreResult where
  data : JsVal
  error : Option PostgrestError

/-- The value bound to `error` by the destructuring of the query result. -/
def StoreResult.errorVal (r : StoreResult) : JsVal :=
  match r.error with
  | none => .json .null
  | some e => .json e.toJson

/-- The client returned by `createClient(supabaseUrl, supabaseKey)`. -/
structure SupabaseClient where
  supabaseUrl : String
  supabaseKey : String
  deriving DecidableEq

/-- The imported `createClient` of supabase-js, which is not part of the
repository, as far as the handler depends on it: it throws when the URL or
the key is empty and otherwise returns a client for them. -/
def createClient (supabaseUrl supabaseKey : String) : Except Thrown SupabaseClient :=
  if supabaseUrl = "" then .error (.failure "supabaseUrl is required.")
  else if supabaseKey = "" then .error (.failure "supabaseKey is required.")
  else .ok { supabaseUrl := supabaseUrl, supabaseKey := supabaseKey }

/-- One call of the Supabase query builder chain. -/
inductive QueryStep where
  | fromTable (table : String) : QueryStep
  | select (columns : String) : QueryStep
  | eq (column : String) (value : JsVal) : QueryStep
  | single : QueryStep

/-- The outbound request handed to `fetch(url, init)`.  The body is the text
written by `JSON.stringify`, kept as the JSON document it denotes. -/
structure FetchRequest where
  url : String
  method : String
  headers : List (String × String)
  body : Json

/-- The collaborators of one invocation. -/
structure World where
  /-- `Deno.env.get`. -/
  env : String → Option String
  /-- The JSON reader behind `req.json()`; `none` when the text is not JSON. -/
  jsonParse : String → Option Json
  /-- `createClient` of supabase-js. -/
  createClient : String → String → Except Thrown SupabaseClient
  /-- Awaiting a query built on a client. -/
  storeLookup : SupabaseClient → List QueryStep → StoreResult
  /-- `fetch`: a response, or a rejection. -/
  fetch : FetchRequest → Except Thrown Response

/-- An outbound call made by the handler, with what it returned. -/
inductive Event where
  | storeLookup (client : SupabaseClient) (query : List QueryStep) (result : StoreResult) : Event
  | fetch (request : FetchRequest) (result : Except Thrown Response) : Event

/-- One run of the handler: the outbound calls in order, then the outcome
(the response returned, or the value the handler failed with). -/
structure Run where
  trace : List Event
  outcome : Except Thrown Response

/-! ## The handler -/

/-- `corsHeaders` (lines 8-12). -/
def corsHeaders : List (String × String) :=
  [("Access-Control-Allow-Origin", "*"),
   ("Access-Control-Allow-Headers", "authorization, x-client-info, apikey, content-type")]

/-- The array literal on the right of `??` (lines 37-43). -/
def nullishDefault : Json :=
  .arr [.obj [("role", .str "system"),
    ("content", .str "- You are an AI teaching assistant at UNC, Charlotte.\n- The course uses a computer program is used to generate a prompt, then the prompt is shared with you.\n- This prompt is helpful explanation of errors or assignment grading feedback.\n- The explanation/feedback is what the user - a Student - is here for.\n- However, something has gone wrong with the program that was to generate this prompt and now you cannot help the student. Please explain this to the student.\n- **Note: The student cannot respond, so do not expect him to**.\n> Respond in markdown syntax only.")]]

/-- The array literal assigned in the `catch` branch (lines 45-51). -/
def catchDefault : Json :=
  .arr [.obj [("role", .str "system"),
    ("content", .str "- You are an AI teaching assistant at UNC, Charlotte.\n- The course uses a computer program is used to generate a prompt, then the prompt is shared with you.\n- This prompt is helpful explanation of errors or assignment grading feedback.\n- The explanation/feedback is what the user - a Student - is here for.\n- However, something has gone wrong with the program that was to generate this prompt and now you cannot help the student. Please explain this to the student.\n- **Note: The student cannot respond, so do not expect him to**.\n> Respond in markdown syntax only.")]]

/-- `lhs ?? rhs`: `rhs` when `lhs` is `null` or `undefined`, else `lhs`. -/
def nullishCoalesce (lhs : JsVal) (rhs : Json) : Json :=
  match lhs with
  | .undefined => rhs
  | .json .null => rhs
  | .json j => j

/-- The `try`/`catch` that assigns `messages` (lines 34-52).  The `as` casts
are erased at run time, so the `try` block is the property read followed by
`??`; the `catch` branch runs when the property read throws. -/
def deriveMessages (data : JsVal) : Json :=
  match data.getProp "messages" with
  | .ok v => nullishCoalesce v nullishDefault
  | .error _ => catchDefault

/-- The type `CreateChatCompletionRequest`, restricted to the fields set. -/
structure CreateChatCompletionRequest where
  model : String
  temperature : ℚ
  top_p : ℚ
  n : ℚ
  frequency_penalty : ℚ
  presence_penalty : ℚ
  stream : Bool
  messages : Json

/-- `completionConfig` (lines 54-63). -/
def completionConfig (messages : Json) : CreateChatCompletionRequest :=
  { model := "gpt-3.5-turbo"
    temperature := 51 / 100
    top_p := 96 / 100
    n := 1
    frequency_penalty := 0
    presence_penalty := 0
    stream := true
    messages := messages }

/-- `JSON.stringify` of a `CreateChatCompletionRequest`: the object with the
properties in declaration order, `messages` as `JSON.stringify` writes it
(the other numbers are finite constants). -/
def CreateChatCompletionRequest.stringify (c : CreateChatCompletionRequest) : Json :=
  .obj [("model", .str c.model),
        ("temperature", .num c.temperature),
        ("top_p", .num c.top_p),
        ("n", .num c.n),
        ("frequency_penalty", .num c.frequency_penalty),
        ("presence_penalty", .num c.presence_penalty),
        ("stream", .bool c.stream),
        ("messages", c.messages.written)]

/-- A template-literal substitution of the result of `Deno.env.get`: an unset
variable is `undefined` and prints as the text "undefined". -/
def templateString (v : Option String) : String :=
  match v with
  | some s => s
  | none => "undefined"

/-- The arguments of the `fetch` call (lines 65-72). -/
def upstreamRequest (w : World) (c : CreateChatCompletionRequest) : FetchRequest :=
  { url := "https://api.openai.com/v1/chat/completions"
    method := "POST"
    headers := [("Authorization", "Bearer " ++ templateString (w.env "OPENAI_API_KEY")),
                ("Content-Type", "application/json")]
    body := c.stringify }

/-- The query built on the client (lines 26-31). -/
def promptQuery (prompt_id : JsVal) : List QueryStep :=
  [.fromTable "prompts", .select "*", .eq "id" prompt_id, .select "messages", .single]

/-- The function passed to `serve` (lines 14-74). -/
def handler (w : World) (req : Request) : Run :=
  if req.method = "OPTIONS" then
    { trace := [], outcome := .ok (Response.create "ok" { headers := corsHeaders }) }
  else
    match w.jsonParse req.body with
    | none => { trace := [], outcome := .error .syntaxError }
    | some parsed =>
      match (JsVal.json parsed).getProp "prompt_id" with
      | .error e => { trace := [], outcome := .error e }
      | .ok prompt_id =>
        match w.createClient ((w.env "SUPABASE_URL").getD "") ((w.env "SUPABASE_ANON_KEY").getD "") with
        | .error e => { trace := [], outcome := .error e }
        | .ok supabaseClient =>
          let result := w.storeLookup supabaseClient (promptQuery prompt_id)
          let lookup := Event.storeLookup supabaseClient (promptQuery prompt_id) result
          if result.errorVal.truthy then
            { trace := [lookup], outcome := .error (.value result.errorVal) }
          else
            let messages := deriveMessages result.data
            let request := upstreamRequest w (completionConfig messages)
            let response := w.fetch request
            { trace := [lookup, Event.fetch request response], outcome := response }

/-- The run of the handler once the store has answered without error. -/
def forwardedRun (w : World) (c : SupabaseClient) (q : List QueryStep) (r : StoreResult) : Run :=
  { trace := [Event.storeLookup c q r,
              Event.fetch (upstreamRequest w (completionConfig (deriveMessages r.data)))
                (w.fetch (upstreamRequest w (completionConfig (deriveMessages r.data))))]
    outcome := w.fetch (upstreamRequest w (completionConfig (deriveMessages r.data))) }

/-! ## Observations on a run -/

/-- The upstream requests of a run, in the order issued. -/
def Run.upstreamCalls (r : Run) : List FetchRequest :=
  r.trace.filterMap fun ev =>
    match ev with
    | .fetch request _ => some request
    | .storeLookup _ _ _ => none

/-- The store lookups of a run, in the order issued. -/
def Run.storeLookups (r : Run) : List (List QueryStep) :=
  r.trace.filterMap fun ev =>
    match ev with
    | .storeLookup _ query _ => some query
    | .fetch _ _ => none

/-- The `messages` property of the body of each upstream request of a run. -/
def Run.sentMessages (r : Run) : List (Option Json) :=
  r.upstreamCalls.map fun request => request.body.getField "messages"

/-! ## The expected shape of `messages` -/

/-- A JSON value is text. -/
def Json.isText : Json → Bool
  | .str _ => true
  | _ => false

/-- Modelled from the spec: the type `ChatCompletionRequestMessage` of the
`openai` package is not part of the repository; a chat message is an object
of text properties whose `role` is one of system, user, assistant and whose
`content` is present. -/
def isChatMessage (j : Json) : Bool :=
  match j with
  | .obj props =>
    props.all (fun kv => kv.2.isText) &&
      match j.getField "role", j.getField "content" with
      | some (.str role), some (.str _) =>
        role == "system" || role == "user" || role == "assistant"
      | _, _ => false
  | _ => false

/-- A value has the shape `Array<ChatCompletionRequestMessage>`. -/
def isMessageList : Json → Bool
  | .arr items => items.all isChatMessage
  | _ => false

/-! ## Concrete collaborators used to exercise the handler -/

/-- A world whose store answers every lookup with `result`, whose body reader
accepts every text as the object with the one property `prompt_id`, whose
clients are created as supabase-js does, and whose upstream answers 200. -/
def worldReturning (result : StoreResult) : World :=
  { env := fun name => if name = "OPENAI_API_KEY" then some "sk-test" else some "test"
    jsonParse := fun _ => some (.obj [("prompt_id", .str "abc")])
    createClient := createClient
    storeLookup := fun _ _ => result
    fetch := fun _ => .ok { status := 200, headers := [], body := "data: [DONE]" } }

/-- A world whose body reader rejects every text. -/
def worldRejectingBody : World :=
  { worldReturning { data := .undefined, error := none } with jsonParse := fun _ => none }

/-- The client created in `worldReturning`. -/
def testClient : SupabaseClient := { supabaseUrl := "test", supabaseKey := "test" }

/-- A POST carrying `prompt_id` "abc". -/
def postAbc : Request :=
  { method := "POST", headers := [], body := "\x7b\"prompt_id\":\"abc\"\x7d" }

/-- An OPTIONS request whose body is not JSON. -/
def optionsRequest : Request :=
  { method := "OPTIONS", headers := [], body := "not json" }

/-- The one-message conversation of scenario A. -/
def whyDidIFail : Json :=
  .obj [("role", .str "user"), ("content", .str "why did I fail?")]

/-- A store record with the given `messages`. -/
def recordWith (messages : Json) : StoreResult :=
  { data := .json (.obj [("messages", messages)]), error := none }

/-- A store failure. -/
def storeFailure : PostgrestError :=
  { message := "JSON object requested, multiple (or no) rows returned"
    details := "Results contain 0 rows"
    hint := ""
    code := "PGRST116" }

/-! ## Reading the upstream body and the query back -/

/-- The property names of a JSON object, in order. -/
def Json.keys : Json → List String
  | .obj props => props.map fun kv => kv.1
  | _ => []

/-- The text of a JSON string. -/
def Json.asStr : Json → Option String
  | .str s => some s
  | _ => none

/-- The value of a JSON number. -/
def Json.asNum : Json → Option ℚ
  | .num q => some q
  | _ => none

/-- The value of a JSON boolean. -/
def Json.asBool : Json → Option Bool
  | .bool b => some b
  | _ => none

/-- Decoding of the upstream body, as the completion endpoint reads it: each
of the eight properties is looked up by name and must have its JSON type. -/
def CreateChatCompletionRequest.decode (j : Json) : Option CreateChatCompletionRequest := do
  let model ← (← j.getField "model").asStr
  let temperature ← (← j.getField "temperature").asNum
  let top_p ← (← j.getField "top_p").asNum
  let n ← (← j.getField "n").asNum
  let frequency_penalty ← (← j.getField "frequency_penalty").asNum
  let presence_penalty ← (← j.getField "presence_penalty").asNum
  let stream ← (← j.getField "stream").asBool
  let messages ← j.getField "messages"
  pure { model := model, temperature := temperature, top_p := top_p, n := n,
         frequency_penalty := frequency_penalty, presence_penalty := presence_penalty,
         stream := stream, messages := messages }

/-- The collection a query chain reads: the argument of its first call. -/
def queryTable : List QueryStep → Option String
  | .fromTable table :: _ => some table
  | _ => none

/-- The filters of a query chain: the column and value of each `eq` call. -/
def queryFilters (q : List QueryStep) : List (String × JsVal) :=
  q.filterMap fun step =>
    match step with
    | .eq column value => some (column, value)
    | _ => none

/-- The columns a query chain selects.  In postgrest-js every `select` call
sets the one `select` parameter of the request, so the last call decides. -/
def querySelected (q : List QueryStep) : Option String :=
  (q.filterMap fun step =>
    match step with
    | .select columns => some columns
    | _ => none).getLast?

/-- The query chain asks for a single record: it calls `single`. -/
def querySingle (q : List QueryStep) : Bool :=
  q.any fun step =>
    match step with
    | .single => true
    | _ => false

/-- The completion request carried by each upstream request of a run, decoded
from its body. -/
def Run.completionRequests (r : Run) : List (Option CreateChatCompletionRequest) :=
  r.upstreamCalls.map fun request => CreateChatCompletionRequest.decode request.body

/-! ## Further collaborators used to exercise the handler -/

/-- A world like `worldReturning` whose body reader answers `parsed` and whose
upstream call has the outcome `upstream`. -/
def worldWith (parsed : Json) (result : StoreResult) (upstream : Except Thrown Response) :
    World :=
  { worldReturning result with
    jsonParse := fun _ => some parsed
    fetch := fun _ => upstream }

/-- A POST whose body is the empty object. -/
def postEmptyObject : Request :=
  { method := "POST", headers := [], body := "\x7b\x7d" }

/-- A PUT with a header, another `prompt_id` and extra body properties. -/
def putWithExtras : Request :=
  { method := "PUT", headers := [("x-client-info", "test")],
    body := "\x7b\"prompt_id\":\"xyz\",\"model\":\"gpt-4\",\"temperature\":2\x7d" }

/-- The parsed body of `putWithExtras`. -/
def bodyWithExtras : Json :=
  .obj [("prompt_id", .str "xyz"), ("model", .str "gpt-4"), ("temperature", .num 2)]

/-- An upstream answer that is not a success. -/
def rateLimited : Response :=
  { status := 429, headers := [("content-type", "application/json")],
    body := "\x7b\"error\":\"rate limit\"\x7d" }

/-! ## Collaborators for the remaining cases -/

/-- A world like `worldReturning` in which the one variable `unset` is not
set. -/
def worldMissing (unset : String) (result : StoreResult) : World :=
  { worldReturning result with env := fun name => if name = unset then none else some "test" }

/-- A store record whose `messages` is the number that `JSON.parse` yields
for the literal `1e400`. -/
def recordWithInfinity : StoreResult :=
  recordWith (.infinity false)

/-- A DELETE whose body is the JSON text `null`. -/
def deleteNull : Request :=
  { method := "DELETE", headers := [], body := "null" }

/-- A request whose method is "options" in lower case. -/
def lowercaseOptions : Request :=
  { method := "options", headers := [], body := "\x7b\"prompt_id\":\"abc\"\x7d" }

/-- The `prompt_id` property of a parsed body that is not `null`: the own
property of an object, `undefined` where there is none. -/
def promptIdOf (parsed : Json) : JsVal :=
  match parsed.getField "prompt_id" with
  | some v => .json v
  | none => .undefined

/-! ## Lemmas on the handler -/

theorem errorVal_truthy (r : StoreResult) : r.errorVal.truthy = r.error.isSome := by
  cases r with
  | mk data error => cases error <;> rfl

theorem stringify_messages (c : CreateChatCompletionRequest) :
    c.stringify.getField "messages" = some c.messages.written := by
  simp [CreateChatCompletionRequest.stringify, Json.getField, List.find?]

theorem handler_of_lookup {w : World} {req : Request} {c : SupabaseClient}
    {q : List QueryStep} {r : StoreResult}
    (h : Event.storeLookup c q r ∈ (handler w req).trace) (he : r.error = none) :
    handler w req = forwardedRun w c q r := by
  by_cases hm : req.method = "OPTIONS"
  · simp [handler, hm] at h
  · cases hp : w.jsonParse req.body with
    | none => simp [handler, hm, hp] at h
    | some parsed =>
      cases hg : (JsVal.json parsed).getProp "prompt_id" with
      | error e => simp [handler, hm, hp, hg] at h
      | ok prompt_id =>
        cases hc : w.createClient ((w.env "SUPABASE_URL").getD "")
            ((w.env "SUPABASE_ANON_KEY").getD "") with
        | error e => simp [handler, hm, hp, hg, hc] at h
        | ok client =>
          cases ht : (w.storeLookup client (promptQuery prompt_id)).errorVal.truthy with
          | true =>
            simp [handler, hm, hp, hg, hc, ht] at h
            obtain ⟨-, -, hr⟩ := h
            rw [← hr, errorVal_truthy, he] at ht
            simp at ht
          | false =>
            simp [handler, hm, hp, hg, hc, ht] at h
            obtain ⟨h1, h2, h3⟩ := h
            subst h1 h2 h3
            simp [handler, hm, hp, hg, hc, ht, forwardedRun]

theorem handler_of_lookup_error {w : World} {req : Request} {c : SupabaseClient}
    {q : List QueryStep} {r : StoreResult} {e : PostgrestError}
    (h : Event.storeLookup c q r ∈ (handler w req).trace) (he : r.error = some e) :
    handler w req =
      { trace := [Event.storeLookup c q r], outcome := .error (.value (.json e.toJson)) } := by
  by_cases hm : req.method = "OPTIONS"
  · simp [handler, hm] at h
  · cases hp : w.jsonParse req.body with
    | none => simp [handler, hm, hp] at h
    | some parsed =>
      cases hg : (JsVal.json parsed).getProp "prompt_id" with
      | error e => simp [handler, hm, hp, hg] at h
      | ok prompt_id =>
        cases hc : w.createClient ((w.env "SUPABASE_URL").getD "")
            ((w.env "SUPABASE_ANON_KEY").getD "") with
        | error e => simp [handler, hm, hp, hg, hc] at h
        | ok client =>
          cases ht : (w.storeLookup client (promptQuery prompt_id)).errorVal.truthy with
          | true =>
            simp [handler, hm, hp, hg, hc, ht] at h
            obtain ⟨h1, h2, h3⟩ := h
            subst h1 h2 h3
            simp [handler, hm, hp, hg, hc, StoreResult.errorVal, he, PostgrestError.toJson,
              JsVal.truthy]
          | false =>
            simp [handler, hm, hp, hg, hc, ht] at h
            obtain ⟨-, -, hr⟩ := h
            rw [← hr, errorVal_truthy, he] at ht
            simp at ht

theorem lookup_of_fetch {w : World} {req : Request} {rq : FetchRequest}
    {res : Except Thrown Response} (h : Event.fetch rq res ∈ (handler w req).trace) :
    ∃ c q r, r.error = none ∧ Event.storeLookup c q r ∈ (handler w req).trace := by
  by_cases hm : req.method = "OPTIONS"
  · simp [handler, hm] at h
  · cases hp : w.jsonParse req.body with
    | none => simp [handler, hm, hp] at h
    | some parsed =>
      cases hg : (JsVal.json parsed).getProp "prompt_id" with
      | error e => simp [handler, hm, hp, hg] at h
      | ok prompt_id =>
        cases hc : w.createClient ((w.env "SUPABASE_URL").getD "")
            ((w.env "SUPABASE_ANON_KEY").getD "") with
        | error e => simp [handler, hm, hp, hg, hc] at h
        | ok client =>
          cases ht : (w.storeLookup client (promptQuery prompt_id)).errorVal.truthy with
          | true => simp [handler, hm, hp, hg, hc, ht] at h
          | false =>
            refine ⟨client, promptQuery prompt_id, w.storeLookup client (promptQuery prompt_id),
              ?_, ?_⟩
            · rw [errorVal_truthy] at ht
              cases hr : (w.storeLookup client (promptQuery prompt_id)).error with
              | none => rfl
              | some e => simp [hr] at ht
            · simp [handler, hm, hp, hg, hc, ht]

theorem sentMessages_forwardedRun (w : World) (c : SupabaseClient) (q : List QueryStep)
    (r : StoreResult) :
    (forwardedRun w c q r).sentMessages = [some (deriveMessages r.data).written] := by
  simp [forwardedRun, Run.sentMessages, Run.upstreamCalls, upstreamRequest, stringify_messages,
    completionConfig]

theorem deriveMessages_of_value {data : JsVal} {v : Json}
    (h : data.getProp "messages" = .ok (.json v)) (hv : v ≠ .null) :
    deriveMessages data = v := by
  unfold deriveMessages
  rw [h]
  cases v <;> first | rfl | exact absurd rfl hv

theorem deriveMessages_cases (data : JsVal) :
    deriveMessages data ≠ .null ∧
      (deriveMessages data = nullishDefault ∨ deriveMessages data = catchDefault ∨
        data.getProp "messages" = .ok (.json (deriveMessages data))) := by
  unfold deriveMessages
  cases h : data.getProp "messages" with
  | error e => simp [catchDefault]
  | ok v =>
    cases v with
    | undefined => simp [nullishCoalesce, nullishDefault]
    | json j => cases j <;> simp [nullishCoalesce, nullishDefault]

theorem lookup_mem_worldReturning (r : StoreResult) :
    Event.storeLookup testClient (promptQuery (.json (.str "abc"))) r
      ∈ (handler (worldReturning r) postAbc).trace := by
  have hg : (JsVal.json (.obj [("prompt_id", .str "abc")])).getProp "prompt_id"
      = .ok (.json (.str "abc")) := rfl
  cases ht : r.errorVal.truthy <;>
    simp [handler, worldReturning, createClient, postAbc, hg, ht, testClient]

theorem fetch_mem_worldReturning (r : StoreResult) (he : r.error = none) :
    Event.fetch (upstreamRequest (worldReturning r) (completionConfig (deriveMessages r.data)))
        ((worldReturning r).fetch
          (upstreamRequest (worldReturning r) (completionConfig (deriveMessages r.data))))
      ∈ (handler (worldReturning r) postAbc).trace := by
  rw [handler_of_lookup (lookup_mem_worldReturning r) he]
  simp [forwardedRun]

theorem forwardedRun_of_fetch {w : World} {req : Request} {rq : FetchRequest}
    {res : Except Thrown Response} (h : Event.fetch rq res ∈ (handler w req).trace) :
    ∃ c q r, r.error = none ∧ Event.storeLookup c q r ∈ (handler w req).trace
      ∧ handler w req = forwardedRun w c q r
      ∧ rq = upstreamRequest w (completionConfig (deriveMessages r.data))
      ∧ res = w.fetch rq := by
  obtain ⟨c, q, r, he, hl⟩ := lookup_of_fetch h
  have hrun := handler_of_lookup hl he
  refine ⟨c, q, r, he, hl, hrun, ?_⟩
  rw [hrun] at h
  simp [forwardedRun] at h
  obtain ⟨h1, h2⟩ := h
  subst h1
  exact ⟨rfl, h2⟩

theorem deriveMessages_of_nullish {data : JsVal}
    (h : data = .undefined ∨ data = .json .null
      ∨ data.getProp "messages" = .ok .undefined
      ∨ data.getProp "messages" = .ok (.json .null)) :
    deriveMessages data = nullishDefault := by
  rcases h with h | h | h | h
  · subst h
    rfl
  · subst h
    rfl
  · simp [deriveMessages, h, nullishCoalesce]
  · simp [deriveMessages, h, nullishCoalesce]

theorem writtenProps_of_text (props : List (String × Json))
    (h : props.all (fun kv => kv.2.isText) = true) : Json.writtenProps props = props := by
  induction props with
  | nil => rfl
  | cons kv rest ih =>
    obtain ⟨key, value⟩ := kv
    simp only [List.all_cons, Bool.and_eq_true] at h
    cases value <;> first
      | (simp [Json.isText] at h; done)
      | (simp only [Json.writtenProps, Json.written, ih h.2])

theorem written_of_isChatMessage {j : Json} (h : isChatMessage j = true) : j.written = j := by
  cases j <;> first
    | (simp [isChatMessage] at h; done)
    | (simp only [isChatMessage, Bool.and_eq_true] at h
       simp only [Json.written, writtenProps_of_text _ h.1])

theorem writtenList_of_messages (items : List Json)
    (h : items.all isChatMessage = true) : Json.writtenList items = items := by
  induction items with
  | nil => rfl
  | cons item rest ih =>
    simp only [List.all_cons, Bool.and_eq_true] at h
    simp only [Json.writtenList, written_of_isChatMessage h.1, ih h.2]

theorem written_of_isMessageList {items : List Json}
    (h : isMessageList (.arr items) = true) : (Json.arr items).written = .arr items := by
  simp only [isMessageList] at h
  simp only [Json.written, writtenList_of_messages items h]

theorem written_nullishDefault : nullishDefault.written = nullishDefault := rfl

/-! ## Message derivation (claims C1 to C5) -/

/-- C1: on a non-OPTIONS request whose store lookup returns no error and a
record whose `messages` is a non-empty list of well-shaped chat messages, the
handler issues one upstream request and the `messages` property of its body
is that list, element for element and in the same order. -/
theorem record_messages_forwarded (w : World) (req : Request) (c : SupabaseClient)
    (q : List QueryStep) (r : StoreResult) (items : List Json)
    (_hm : req.method ≠ "OPTIONS")
    (hl : Event.storeLookup c q r ∈ (handler w req).trace)
    (he : r.error = none)
    (hd : r.data.getProp "messages" = .ok (.json (.arr items)))
    (_hne : items ≠ [])
    (hs : isMessageList (.arr items) = true) :
    (handler w req).sentMessages = [some (.arr items)] := by
  rw [handler_of_lookup hl he, sentMessages_forwardedRun,
    deriveMessages_of_value hd (by simp), written_of_isMessageList hs]

/-- Scenario A: the store returns the one-message conversation and the
upstream request carries exactly that one-message list. -/
theorem record_messages_forwarded_witness :
    (handler (worldReturning (recordWith (.arr [whyDidIFail]))) postAbc).sentMessages
      = [some (.arr [whyDidIFail])] :=
  record_messages_forwarded (worldReturning (recordWith (.arr [whyDidIFail]))) postAbc
    testClient (promptQuery (.json (.str "abc"))) (recordWith (.arr [whyDidIFail]))
    [whyDidIFail] (by decide) (lookup_mem_worldReturning _) rfl rfl (by simp) rfl

/-- C2: on a non-OPTIONS request whose store lookup returns no error and a
record whose `messages` is `null` or `undefined`, the handler issues one
upstream request and the `messages` property of its body is the fixed
fallback, a one-element list holding a message of role system. -/
theorem absent_messages_fallback (w : World) (req : Request) (c : SupabaseClient)
    (q : List QueryStep) (r : StoreResult)
    (_hm : req.method ≠ "OPTIONS")
    (hl : Event.storeLookup c q r ∈ (handler w req).trace)
    (he : r.error = none)
    (hd : r.data.getProp "messages" = .ok (.json .null)
      ∨ r.data.getProp "messages" = .ok .undefined) :
    (handler w req).sentMessages = [some nullishDefault]
      ∧ ∃ notice, nullishDefault
          = .arr [.obj [("role", .str "system"), ("content", .str notice)]] := by
  refine ⟨?_, _, rfl⟩
  rw [handler_of_lookup hl he, sentMessages_forwardedRun]
  rcases hd with hd | hd <;>
    simp [deriveMessages, hd, nullishCoalesce, written_nullishDefault]

/-- Scenario B: the store returns `messages: null` and the upstream request
carries the fallback system message. -/
theorem absent_messages_fallback_witness :
    (handler (worldReturning (recordWith .null)) postAbc).sentMessages = [some nullishDefault] :=
  (absent_messages_fallback (worldReturning (recordWith .null)) postAbc
    testClient (promptQuery (.json (.str "abc"))) (recordWith .null)
    (by decide) (lookup_mem_worldReturning _) rfl (Or.inl rfl)).1

/-- C3, as stated, fails: the store returns a record whose `messages` is the
empty list, without error, and the upstream request carries the empty list,
which is neither of the two fallback literals. -/
theorem empty_messages_not_replaced :
    postAbc.method ≠ "OPTIONS"
      ∧ Event.storeLookup testClient (promptQuery (.json (.str "abc"))) (recordWith (.arr []))
          ∈ (handler (worldReturning (recordWith (.arr []))) postAbc).trace
      ∧ (recordWith (.arr [])).error = none
      ∧ (recordWith (.arr [])).data.getProp "messages" = .ok (.json (.arr []))
      ∧ (handler (worldReturning (recordWith (.arr []))) postAbc).sentMessages = [some (.arr [])]
      ∧ Json.arr [] ≠ nullishDefault ∧ Json.arr [] ≠ catchDefault :=
  ⟨by decide, lookup_mem_worldReturning _, rfl, rfl, rfl, by simp [nullishDefault],
    by simp [catchDefault]⟩

/-- C3, amended: on a non-OPTIONS request whose store lookup returns no error
and a record whose `messages` is the empty list, the handler issues one
upstream request and the `messages` property of its body is the empty list:
the stored value is forwarded as it is. -/
theorem empty_messages_forwarded (w : World) (req : Request) (c : SupabaseClient)
    (q : List QueryStep) (r : StoreResult)
    (_hm : req.method ≠ "OPTIONS")
    (hl : Event.storeLookup c q r ∈ (handler w req).trace)
    (he : r.error = none)
    (hd : r.data.getProp "messages" = .ok (.json (.arr []))) :
    (handler w req).sentMessages = [some (.arr [])] := by
  rw [handler_of_lookup hl he, sentMessages_forwardedRun,
    deriveMessages_of_value hd (by simp)]
  rfl

/-- The amended C3 on a record holding the empty list. -/
theorem empty_messages_forwarded_witness :
    (handler (worldReturning (recordWith (.arr []))) postAbc).sentMessages = [some (.arr [])] :=
  empty_messages_forwarded (worldReturning (recordWith (.arr []))) postAbc
    testClient (promptQuery (.json (.str "abc"))) (recordWith (.arr []))
    (by decide) (lookup_mem_worldReturning _) rfl rfl

/-- C4 fails on the code: the store returns, without error, a record whose
`messages` is a list with an element that has no `content` (and, in a second
run, a string instead of a list); neither has the expected shape, the cast
inside the `try` block does not throw, and the upstream request carries the
stored value, not the fallback that the `catch` branch would assign. -/
theorem malformed_messages_not_replaced :
    postAbc.method ≠ "OPTIONS"
      ∧ isMessageList (.arr [.obj [("role", .str "user")]]) = false
      ∧ Event.storeLookup testClient (promptQuery (.json (.str "abc")))
            (recordWith (.arr [.obj [("role", .str "user")]]))
          ∈ (handler (worldReturning (recordWith (.arr [.obj [("role", .str "user")]])))
              postAbc).trace
      ∧ (handler (worldReturning (recordWith (.arr [.obj [("role", .str "user")]])))
            postAbc).sentMessages = [some (.arr [.obj [("role", .str "user")]])]
      ∧ Json.arr [.obj [("role", .str "user")]] ≠ nullishDefault
      ∧ Json.arr [.obj [("role", .str "user")]] ≠ catchDefault
      ∧ isMessageList (.str "oops") = false
      ∧ (handler (worldReturning (recordWith (.str "oops"))) postAbc).sentMessages
          = [some (.str "oops")]
      ∧ Json.str "oops" ≠ nullishDefault ∧ Json.str "oops" ≠ catchDefault :=
  ⟨by decide, rfl, lookup_mem_worldReturning _, rfl, by simp [nullishDefault],
    by simp [catchDefault], rfl, rfl, by simp [nullishDefault], by simp [catchDefault]⟩

/-- C5, as stated, fails: the handler issues the upstream POST with an empty
`messages` list when the store returns a record holding the empty list. -/
theorem upstream_messages_can_be_empty :
    Event.fetch
        (upstreamRequest (worldReturning (recordWith (.arr []))) (completionConfig (.arr [])))
        (.ok { status := 200, headers := [], body := "data: [DONE]" })
      ∈ (handler (worldReturning (recordWith (.arr []))) postAbc).trace
    ∧ (upstreamRequest (worldReturning (recordWith (.arr [])))
        (completionConfig (.arr []))).body.getField "messages" = some (.arr []) :=
  ⟨fetch_mem_worldReturning (recordWith (.arr [])) rfl, rfl⟩

/-- C5, amended: every upstream request the handler issues is built from the
error-free result of the store lookup, and the value assigned to `messages`
is never `null`; when the record or its `messages` value is `null` or
`undefined`, the `messages` property of the body is the one-element fallback;
when the stored `messages` is a list of well-shaped chat messages, it is that
list unchanged, hence empty exactly when the stored list is empty. -/
theorem upstream_messages_fallback_or_record (w : World) (req : Request) (rq : FetchRequest)
    (res : Except Thrown Response)
    (h : Event.fetch rq res ∈ (handler w req).trace) :
    ∃ c q r, Event.storeLookup c q r ∈ (handler w req).trace ∧ r.error = none
      ∧ rq = upstreamRequest w (completionConfig (deriveMessages r.data))
      ∧ deriveMessages r.data ≠ .null
      ∧ ((r.data = .undefined ∨ r.data = .json .null
            ∨ r.data.getProp "messages" = .ok .undefined
            ∨ r.data.getProp "messages" = .ok (.json .null)) →
          rq.body.getField "messages" = some nullishDefault)
      ∧ (∀ items, r.data.getProp "messages" = .ok (.json (.arr items)) →
          isMessageList (.arr items) = true →
          rq.body.getField "messages" = some (.arr items)) := by
  obtain ⟨c, q, r, he, hl, -, hrq, -⟩ := forwardedRun_of_fetch h
  refine ⟨c, q, r, hl, he, hrq, (deriveMessages_cases r.data).1, ?_, ?_⟩
  · intro hn
    rw [hrq]
    show (completionConfig (deriveMessages r.data)).stringify.getField "messages" = _
    rw [stringify_messages]
    show some (deriveMessages r.data).written = _
    rw [deriveMessages_of_nullish hn, written_nullishDefault]
  · intro items hd hs
    rw [hrq]
    show (completionConfig (deriveMessages r.data)).stringify.getField "messages" = _
    rw [stringify_messages]
    show some (deriveMessages r.data).written = _
    rw [deriveMessages_of_value hd (by simp), written_of_isMessageList hs]

/-- The amended C5 on the run of scenario A. -/
theorem upstream_messages_fallback_or_record_witness :
    ∃ c q r, Event.storeLookup c q r
          ∈ (handler (worldReturning (recordWith (.arr [whyDidIFail]))) postAbc).trace
      ∧ r.error = none
      ∧ upstreamRequest (worldReturning (recordWith (.arr [whyDidIFail])))
            (completionConfig (.arr [whyDidIFail]))
          = upstreamRequest (worldReturning (recordWith (.arr [whyDidIFail])))
              (completionConfig (deriveMessages r.data))
      ∧ deriveMessages r.data ≠ .null
      ∧ ((r.data = .undefined ∨ r.data = .json .null
            ∨ r.data.getProp "messages" = .ok .undefined
            ∨ r.data.getProp "messages" = .ok (.json .null)) →
          (upstreamRequest (worldReturning (recordWith (.arr [whyDidIFail])))
            (completionConfig (.arr [whyDidIFail]))).body.getField "messages"
              = some nullishDefault)
      ∧ (∀ items, r.data.getProp "messages" = .ok (.json (.arr items)) →
          isMessageList (.arr items) = true →
          (upstreamRequest (worldReturning (recordWith (.arr [whyDidIFail])))
            (completionConfig (.arr [whyDidIFail]))).body.getField "messages"
              = some (.arr items)) :=
  upstream_messages_fallback_or_record (worldReturning (recordWith (.arr [whyDidIFail])))
    postAbc _ _ (fetch_mem_worldReturning (recordWith (.arr [whyDidIFail])) rfl)

/-! ## The fixed configuration (claim C6) -/

/-- C6: in every upstream request the handler issues, whatever the request
and the store record, the body has model "gpt-3.5-turbo", temperature 51/100,
top_p 96/100, n 1, frequency_penalty 0, presence_penalty 0 and stream true. -/
theorem upstream_config_constant (w : World) (req : Request) (rq : FetchRequest)
    (res : Except Thrown Response)
    (h : Event.fetch rq res ∈ (handler w req).trace) :
    rq.body.getField "model" = some (.str "gpt-3.5-turbo")
      ∧ rq.body.getField "temperature" = some (.num (51 / 100))
      ∧ rq.body.getField "top_p" = some (.num (96 / 100))
      ∧ rq.body.getField "n" = some (.num 1)
      ∧ rq.body.getField "frequency_penalty" = some (.num 0)
      ∧ rq.body.getField "presence_penalty" = some (.num 0)
      ∧ rq.body.getField "stream" = some (.bool true) := by
  obtain ⟨c, q, r, -, -, -, hrq, -⟩ := forwardedRun_of_fetch h
  subst hrq
  exact ⟨rfl, rfl, rfl, rfl, rfl, rfl, rfl⟩

/-- C6 on the upstream request of scenario A. -/
theorem upstream_config_constant_witness :
    (upstreamRequest (worldReturning (recordWith (.arr [whyDidIFail])))
        (completionConfig (.arr [whyDidIFail]))).body.getField "model"
      = some (.str "gpt-3.5-turbo") :=
  (upstream_config_constant (worldReturning (recordWith (.arr [whyDidIFail]))) postAbc _ _
    (fetch_mem_worldReturning (recordWith (.arr [whyDidIFail])) rfl)).1

/-! ## The preflight branch (claims C7 and C8) -/

/-- C7: on a request whose method is OPTIONS, whatever its body, the handler
makes no outbound call: no store lookup and no upstream request. -/
theorem options_no_effects (w : World) (req : Request) (h : req.method = "OPTIONS") :
    (handler w req).trace = [] ∧ (handler w req).storeLookups = []
      ∧ (handler w req).upstreamCalls = [] := by
  simp [handler, h, Run.storeLookups, Run.upstreamCalls]

/-- C7 on an OPTIONS request whose body is not JSON. -/
theorem options_no_effects_witness :
    (handler worldRejectingBody optionsRequest).trace = [] :=
  (options_no_effects worldRejectingBody optionsRequest rfl).1

/-- C8, as stated, fails: the response to an OPTIONS request carries three
headers, the two of `corsHeaders` and the content type that
`new Response` sets for a text body, so its headers are not exactly the two
CORS headers. -/
theorem options_headers_not_only_cors :
    optionsRequest.method = "OPTIONS"
      ∧ (handler worldRejectingBody optionsRequest).outcome
          = .ok { status := 200
                  headers := [("Access-Control-Allow-Origin", "*"),
                    ("Access-Control-Allow-Headers",
                      "authorization, x-client-info, apikey, content-type"),
                    ("content-type", "text/plain;charset=UTF-8")]
                  body := "ok" }
      ∧ [("Access-Control-Allow-Origin", "*"),
          ("Access-Control-Allow-Headers", "authorization, x-client-info, apikey, content-type"),
          ("content-type", "text/plain;charset=UTF-8")]
        ≠ [("Access-Control-Allow-Origin", "*"),
          ("Access-Control-Allow-Headers",
            "authorization, x-client-info, apikey, content-type")] :=
  ⟨rfl, rfl, by decide⟩

/-- C8, amended: on a request whose method is OPTIONS, whatever its body (also
one the JSON reader rejects), the handler does not fail: it returns a
response of status 200 whose headers are Access-Control-Allow-Origin "*",
Access-Control-Allow-Headers "authorization, x-client-info, apikey,
content-type" and the content-type "text/plain;charset=UTF-8" of its text
body, and no others. -/
theorem options_response (w : World) (req : Request) (h : req.method = "OPTIONS") :
    ∃ resp, (handler w req).outcome = .ok resp ∧ resp.status = 200
      ∧ resp.headers =
          [("Access-Control-Allow-Origin", "*"),
           ("Access-Control-Allow-Headers", "authorization, x-client-info, apikey, content-type"),
           ("content-type", "text/plain;charset=UTF-8")] := by
  refine ⟨Response.create "ok" { headers := corsHeaders }, ?_, rfl, rfl⟩
  simp [handler, h]

/-- The amended C8 on an OPTIONS request whose body the JSON reader rejects. -/
theorem options_response_witness :
    worldRejectingBody.jsonParse optionsRequest.body = none
      ∧ ∃ resp, (handler worldRejectingBody optionsRequest).outcome = .ok resp
          ∧ resp.status = 200
          ∧ resp.headers =
              [("Access-Control-Allow-Origin", "*"),
               ("Access-Control-Allow-Headers",
                 "authorization, x-client-info, apikey, content-type"),
               ("content-type", "text/plain;charset=UTF-8")] :=
  ⟨rfl, options_response worldRejectingBody optionsRequest rfl⟩

/-! ## Failures (claims C9 and C10) -/

/-- C9: on a non-OPTIONS request whose body is not valid JSON, the handler
fails with the reader's `SyntaxError` and has made no outbound call: neither
a store lookup nor an upstream request. -/
theorem invalid_body_fails_first (w : World) (req : Request)
    (hm : req.method ≠ "OPTIONS") (hp : w.jsonParse req.body = none) :
    (handler w req).outcome = .error .syntaxError
      ∧ (handler w req).trace = []
      ∧ (handler w req).storeLookups = [] ∧ (handler w req).upstreamCalls = [] := by
  simp [handler, hm, hp, Run.storeLookups, Run.upstreamCalls]

/-- C9 on a POST whose body the JSON reader rejects. -/
theorem invalid_body_fails_first_witness :
    (handler worldRejectingBody postAbc).outcome = .error .syntaxError
      ∧ (handler worldRejectingBody postAbc).trace = [] :=
  have h := invalid_body_fails_first worldRejectingBody postAbc (by decide) rfl
  ⟨h.1, h.2.1⟩

/-- C10: on a non-OPTIONS request with a parseable body, if the store lookup
reports an error, whatever the `data` beside it, the handler fails with that
same error value; the lookup is its only outbound call, so no upstream
request is issued and no `messages` value, fallback or other, is sent. -/
theorem store_error_rethrown (w : World) (req : Request) (parsed : Json)
    (c : SupabaseClient) (q : List QueryStep) (r : StoreResult) (e : PostgrestError)
    (_hm : req.method ≠ "OPTIONS")
    (_hp : w.jsonParse req.body = some parsed)
    (hl : Event.storeLookup c q r ∈ (handler w req).trace)
    (he : r.error = some e) :
    (handler w req).outcome = .error (.value r.errorVal)
      ∧ r.errorVal = .json e.toJson
      ∧ (handler w req).trace = [Event.storeLookup c q r]
      ∧ (handler w req).upstreamCalls = []
      ∧ (handler w req).sentMessages = [] := by
  rw [handler_of_lookup_error hl he]
  simp [StoreResult.errorVal, he, Run.upstreamCalls, Run.sentMessages]

/-- C10 on a store that reports a failure beside a non-null `data`. -/
theorem store_error_rethrown_witness :
    (handler (worldReturning { data := .json (.obj [("messages", .arr [whyDidIFail])]),
                               error := some storeFailure }) postAbc).outcome
        = .error (.value (.json storeFailure.toJson))
      ∧ (handler (worldReturning { data := .json (.obj [("messages", .arr [whyDidIFail])]),
                                   error := some storeFailure }) postAbc).upstreamCalls = [] :=
  have h := store_error_rethrown
    (worldReturning { data := .json (.obj [("messages", .arr [whyDidIFail])]),
                      error := some storeFailure })
    postAbc (.obj [("prompt_id", .str "abc")]) testClient (promptQuery (.json (.str "abc")))
    { data := .json (.obj [("messages", .arr [whyDidIFail])]), error := some storeFailure }
    storeFailure (by decide) rfl (lookup_mem_worldReturning _) rfl
  ⟨h.1, h.2.2.2.1⟩

/-! ## Further lemmas on the handler -/

theorem lookup_mem_worldWith (parsed : Json) (pid : JsVal) (r : StoreResult)
    (up : Except Thrown Response) (req : Request)
    (hm : req.method ≠ "OPTIONS")
    (hg : (JsVal.json parsed).getProp "prompt_id" = .ok pid) :
    Event.storeLookup testClient (promptQuery pid) r
      ∈ (handler (worldWith parsed r up) req).trace := by
  cases ht : r.errorVal.truthy <;>
    simp [handler, worldWith, worldReturning, createClient, hm, hg, ht, testClient]

theorem fetch_mem_worldWith (parsed : Json) (pid : JsVal) (r : StoreResult)
    (up : Except Thrown Response) (req : Request)
    (hm : req.method ≠ "OPTIONS")
    (hg : (JsVal.json parsed).getProp "prompt_id" = .ok pid)
    (he : r.error = none) :
    Event.fetch
        (upstreamRequest (worldWith parsed r up) (completionConfig (deriveMessages r.data))) up
      ∈ (handler (worldWith parsed r up) req).trace := by
  rw [handler_of_lookup (lookup_mem_worldWith parsed pid r up req hm hg) he]
  simp [forwardedRun, worldWith]

theorem decode_stringify (c : CreateChatCompletionRequest) :
    CreateChatCompletionRequest.decode c.stringify
      = some { c with messages := c.messages.written } := by
  cases c
  rfl

theorem upstreamCalls_forwardedRun (w : World) (c : SupabaseClient) (q : List QueryStep)
    (r : StoreResult) :
    (forwardedRun w c q r).upstreamCalls
      = [upstreamRequest w (completionConfig (deriveMessages r.data))] := by
  simp [forwardedRun, Run.upstreamCalls]

theorem storeLookups_forwardedRun (w : World) (c : SupabaseClient) (q : List QueryStep)
    (r : StoreResult) :
    (forwardedRun w c q r).storeLookups = [q] := by
  simp [forwardedRun, Run.storeLookups]

/-- Every store lookup of the handler is the query chain built from the
`prompt_id` property of the parsed body. -/
theorem query_of_lookup {w : World} {req : Request} {c : SupabaseClient}
    {q : List QueryStep} {r : StoreResult}
    (h : Event.storeLookup c q r ∈ (handler w req).trace) :
    ∃ parsed pid, w.jsonParse req.body = some parsed
      ∧ (JsVal.json parsed).getProp "prompt_id" = .ok pid
      ∧ q = promptQuery pid := by
  by_cases hm : req.method = "OPTIONS"
  · simp [handler, hm] at h
  · cases hp : w.jsonParse req.body with
    | none => simp [handler, hm, hp] at h
    | some parsed =>
      cases hg : (JsVal.json parsed).getProp "prompt_id" with
      | error e => simp [handler, hm, hp, hg] at h
      | ok prompt_id =>
        cases hc : w.createClient ((w.env "SUPABASE_URL").getD "")
            ((w.env "SUPABASE_ANON_KEY").getD "") with
        | error e => simp [handler, hm, hp, hg, hc] at h
        | ok client =>
          refine ⟨parsed, prompt_id, rfl, hg, ?_⟩
          cases ht : (w.storeLookup client (promptQuery prompt_id)).errorVal.truthy <;>
            simp [handler, hm, hp, hg, hc, ht] at h <;> exact h.2.1

/-- The handler on a body that parses and a client that is created. -/
theorem handler_of_client {w : World} {req : Request} {parsed : Json} {pid : JsVal}
    {client : SupabaseClient}
    (hm : req.method ≠ "OPTIONS")
    (hp : w.jsonParse req.body = some parsed)
    (hg : (JsVal.json parsed).getProp "prompt_id" = .ok pid)
    (hc : w.createClient ((w.env "SUPABASE_URL").getD "")
        ((w.env "SUPABASE_ANON_KEY").getD "") = .ok client) :
    Event.storeLookup client (promptQuery pid) (w.storeLookup client (promptQuery pid))
      ∈ (handler w req).trace := by
  cases ht : (w.storeLookup client (promptQuery pid)).errorVal.truthy <;>
    simp [handler, hm, hp, hg, hc, ht]

theorem getProp_of_missing {parsed : Json} {key : String}
    (hn : parsed ≠ .null) (hf : parsed.getField key = none) :
    (JsVal.json parsed).getProp key = .ok .undefined := by
  cases parsed <;> first | exact absurd rfl hn | simp [JsVal.getProp, hf]

theorem upstreamRequest_congr {w1 w2 : World} (h : w1.env = w2.env)
    (c : CreateChatCompletionRequest) : upstreamRequest w1 c = upstreamRequest w2 c := by
  simp [upstreamRequest, h]

theorem completionRequests_forwardedRun (w : World) (c : SupabaseClient) (q : List QueryStep)
    (r : StoreResult) :
    (forwardedRun w c q r).completionRequests
      = [some (completionConfig (deriveMessages r.data).written)] := by
  simp only [Run.completionRequests, upstreamCalls_forwardedRun, List.map, upstreamRequest,
    decode_stringify]
  rfl

/-! ## The upstream call (claims C11 and C12) -/

/-- C11: on a non-OPTIONS request that reaches the upstream call, the outcome
of the handler is the outcome of that call: a response, of whatever status,
is returned as it is, and a rejection is the handler's failure. -/
theorem upstream_outcome_relayed (w : World) (req : Request) (rq : FetchRequest)
    (res : Except Thrown Response)
    (_hm : req.method ≠ "OPTIONS")
    (h : Event.fetch rq res ∈ (handler w req).trace) :
    (handler w req).outcome = res ∧ res = w.fetch rq
      ∧ (∀ resp, res = .ok resp → (handler w req).outcome = .ok resp)
      ∧ (∀ e, res = .error e → (handler w req).outcome = .error e) := by
  obtain ⟨c, q, r, -, -, hrun, hrq, hres⟩ := forwardedRun_of_fetch h
  have ho : (handler w req).outcome = res := by
    rw [hrun, hres, hrq]
    rfl
  exact ⟨ho, hres, fun resp hr => hr ▸ ho, fun e hr => hr ▸ ho⟩

/-- C11 on an upstream that answers 429: the handler returns that response. -/
theorem upstream_outcome_relayed_witness :
    (handler (worldWith (.obj [("prompt_id", .str "abc")]) (recordWith (.arr [whyDidIFail]))
        (.ok rateLimited)) postAbc).outcome = .ok rateLimited :=
  (upstream_outcome_relayed
    (worldWith (.obj [("prompt_id", .str "abc")]) (recordWith (.arr [whyDidIFail]))
      (.ok rateLimited))
    postAbc _ _ (by decide)
    (fetch_mem_worldWith (.obj [("prompt_id", .str "abc")]) (.json (.str "abc"))
      (recordWith (.arr [whyDidIFail])) (.ok rateLimited) postAbc (by decide) rfl rfl)).1

/-- C12, as stated, fails: the store returns a record whose `messages` is the
non-finite number read from `1e400`; the completion request built holds that
number, `JSON.stringify` writes it as `null`, and the body decodes to a
completion request whose `messages` is `null`, not to the one built. -/
theorem upstream_body_not_decoding_back :
    Event.fetch (upstreamRequest (worldReturning recordWithInfinity)
          (completionConfig (.infinity false)))
        (.ok { status := 200, headers := [], body := "data: [DONE]" })
      ∈ (handler (worldReturning recordWithInfinity) postAbc).trace
    ∧ deriveMessages recordWithInfinity.data = .infinity false
    ∧ (upstreamRequest (worldReturning recordWithInfinity)
        (completionConfig (.infinity false))).body.getField "messages" = some .null
    ∧ CreateChatCompletionRequest.decode
        (upstreamRequest (worldReturning recordWithInfinity)
          (completionConfig (.infinity false))).body = some (completionConfig .null)
    ∧ completionConfig .null ≠ completionConfig (.infinity false) :=
  ⟨fetch_mem_worldReturning recordWithInfinity rfl, rfl, rfl, rfl,
    fun h => Json.noConfusion (congrArg CreateChatCompletionRequest.messages h)⟩

/-- C12, amended: every upstream request the handler issues, under a
configured `OPENAI_API_KEY`, is a POST to the chat-completion endpoint whose
headers are Authorization "Bearer " followed by the key and Content-Type
"application/json"; its body is the serialisation of the completion request
built from the lookup's record, an object with the eight keys model,
temperature, top_p, n, frequency_penalty, presence_penalty, stream, messages;
it decodes back to that completion request with `messages` as
`JSON.stringify` writes it, that is with every non-finite number as `null`,
hence to the completion request itself when serialisation leaves `messages`
as it is. -/
theorem upstream_request_shape (w : World) (req : Request) (rq : FetchRequest)
    (res : Except Thrown Response) (key : String)
    (h : Event.fetch rq res ∈ (handler w req).trace)
    (hk : w.env "OPENAI_API_KEY" = some key) :
    rq.url = "https://api.openai.com/v1/chat/completions"
      ∧ rq.method = "POST"
      ∧ rq.headers = [("Authorization", "Bearer " ++ key), ("Content-Type", "application/json")]
      ∧ rq.body.keys = ["model", "temperature", "top_p", "n", "frequency_penalty",
          "presence_penalty", "stream", "messages"]
      ∧ ∃ c q r, Event.storeLookup c q r ∈ (handler w req).trace
          ∧ rq.body = (completionConfig (deriveMessages r.data)).stringify
          ∧ CreateChatCompletionRequest.decode rq.body
              = some (completionConfig (deriveMessages r.data).written)
          ∧ ((deriveMessages r.data).written = deriveMessages r.data →
              CreateChatCompletionRequest.decode rq.body
                = some (completionConfig (deriveMessages r.data))) := by
  obtain ⟨c, q, r, -, hl, -, hrq, -⟩ := forwardedRun_of_fetch h
  subst hrq
  refine ⟨rfl, rfl, ?_, rfl, c, q, r, hl, rfl, decode_stringify _, ?_⟩
  · simp [upstreamRequest, hk, templateString]
  · intro hw
    have hd := decode_stringify (completionConfig (deriveMessages r.data))
    rw [show ({ completionConfig (deriveMessages r.data) with
          messages := (completionConfig (deriveMessages r.data)).messages.written } :
          CreateChatCompletionRequest) = completionConfig (deriveMessages r.data).written
        from rfl, hw] at hd
    exact hd

/-- The amended C12 on the upstream request of scenario A, with the key
"sk-test": the headers, and the body decoding back to the request built. -/
theorem upstream_request_shape_witness :
    (upstreamRequest (worldReturning (recordWith (.arr [whyDidIFail])))
        (completionConfig (.arr [whyDidIFail]))).headers
      = [("Authorization", "Bearer " ++ "sk-test"), ("Content-Type", "application/json")] :=
  (upstream_request_shape (worldReturning (recordWith (.arr [whyDidIFail]))) postAbc _ _
    "sk-test" (fetch_mem_worldReturning (recordWith (.arr [whyDidIFail])) rfl) rfl).2.2.1

/-! ## A body without `prompt_id` (claim C13) -/

/-- C13, as stated, fails: the body is the empty object, which is valid JSON
without a `prompt_id` property; the handler issues the store lookup with
`undefined` as the id, the store answers a record, and the handler returns
the upstream response instead of failing. -/
theorem missing_prompt_id_not_rejected :
    postEmptyObject.method ≠ "OPTIONS"
      ∧ (worldWith (.obj []) (recordWith (.arr [whyDidIFail]))
          (.ok { status := 200, headers := [], body := "data: [DONE]" })).jsonParse
            postEmptyObject.body = some (.obj [])
      ∧ (Json.obj []).getField "prompt_id" = none
      ∧ (handler (worldWith (.obj []) (recordWith (.arr [whyDidIFail]))
          (.ok { status := 200, headers := [], body := "data: [DONE]" }))
            postEmptyObject).storeLookups = [promptQuery .undefined]
      ∧ (handler (worldWith (.obj []) (recordWith (.arr [whyDidIFail]))
          (.ok { status := 200, headers := [], body := "data: [DONE]" }))
            postEmptyObject).outcome
          = .ok { status := 200, headers := [], body := "data: [DONE]" } :=
  ⟨by decide, rfl, rfl, rfl, rfl⟩

/-- C13, amended: on a non-OPTIONS request whose body is valid JSON other than
`null` without a `prompt_id` property, the handler does not fail at
extraction: once the store client is created it issues the one store lookup
with `undefined` as the id; if that lookup reports an error the handler fails
with it and issues no upstream call, and if it reports none the upstream call
is issued and its outcome is the handler's. -/
theorem missing_prompt_id_reaches_store (w : World) (req : Request) (parsed : Json)
    (client : SupabaseClient)
    (hm : req.method ≠ "OPTIONS")
    (hp : w.jsonParse req.body = some parsed)
    (hn : parsed ≠ .null)
    (hf : parsed.getField "prompt_id" = none)
    (hc : w.createClient ((w.env "SUPABASE_URL").getD "")
        ((w.env "SUPABASE_ANON_KEY").getD "") = .ok client) :
    (handler w req).storeLookups = [promptQuery .undefined]
      ∧ (∀ e, (w.storeLookup client (promptQuery .undefined)).error = some e →
          (handler w req).outcome = .error (.value (.json e.toJson))
            ∧ (handler w req).upstreamCalls = [])
      ∧ ((w.storeLookup client (promptQuery .undefined)).error = none →
          (handler w req).upstreamCalls
              = [upstreamRequest w (completionConfig (deriveMessages
                  (w.storeLookup client (promptQuery .undefined)).data))]
            ∧ (handler w req).outcome
              = w.fetch (upstreamRequest w (completionConfig (deriveMessages
                  (w.storeLookup client (promptQuery .undefined)).data)))) := by
  have hl := handler_of_client hm hp (getProp_of_missing hn hf) hc
  refine ⟨?_, ?_, ?_⟩
  · cases he : (w.storeLookup client (promptQuery .undefined)).error with
    | none => rw [handler_of_lookup hl he, storeLookups_forwardedRun]
    | some e => rw [handler_of_lookup_error hl he]; simp [Run.storeLookups]
  · intro e he
    rw [handler_of_lookup_error hl he]
    simp [Run.upstreamCalls]
  · intro he
    rw [handler_of_lookup hl he, upstreamCalls_forwardedRun]
    exact ⟨rfl, rfl⟩

/-- The amended C13 on the empty object as body. -/
theorem missing_prompt_id_reaches_store_witness :
    (handler (worldWith (.obj []) (recordWith (.arr [whyDidIFail])) (.ok rateLimited))
        postEmptyObject).storeLookups = [promptQuery .undefined] :=
  (missing_prompt_id_reaches_store
    (worldWith (.obj []) (recordWith (.arr [whyDidIFail])) (.ok rateLimited))
    postEmptyObject (.obj []) testClient (by decide) rfl (by simp) rfl rfl).1

/-- The result recorded with a store lookup is the store's answer to it. -/
theorem result_of_lookup {w : World} {req : Request} {c : SupabaseClient}
    {q : List QueryStep} {r : StoreResult}
    (h : Event.storeLookup c q r ∈ (handler w req).trace) :
    r = w.storeLookup c q := by
  by_cases hm : req.method = "OPTIONS"
  · simp [handler, hm] at h
  · cases hp : w.jsonParse req.body with
    | none => simp [handler, hm, hp] at h
    | some parsed =>
      cases hg : (JsVal.json parsed).getProp "prompt_id" with
      | error e => simp [handler, hm, hp, hg] at h
      | ok prompt_id =>
        cases hc : w.createClient ((w.env "SUPABASE_URL").getD "")
            ((w.env "SUPABASE_ANON_KEY").getD "") with
        | error e => simp [handler, hm, hp, hg, hc] at h
        | ok client =>
          cases ht : (w.storeLookup client (promptQuery prompt_id)).errorVal.truthy <;>
            simp [handler, hm, hp, hg, hc, ht] at h <;>
            (obtain ⟨h1, h2, h3⟩ := h; subst h1 h2; exact h3)

/-! ## Determinism and non-interference (claims C14 and C15) -/

/-- C14: two runs of the handler on the same valid request, in worlds with the
same configuration whose store lookups return the same error-free result
(and which may differ in everything else, such as the upstream answers),
build the same completion request, hence the same `messages`, and issue the
same upstream request. -/
theorem request_assembly_deterministic (w1 w2 : World) (req : Request)
    (c1 c2 : SupabaseClient) (q1 q2 : List QueryStep) (r : StoreResult)
    (_hm : req.method ≠ "OPTIONS")
    (hl1 : Event.storeLookup c1 q1 r ∈ (handler w1 req).trace)
    (hl2 : Event.storeLookup c2 q2 r ∈ (handler w2 req).trace)
    (he : r.error = none)
    (henv : w1.env = w2.env) :
    (handler w1 req).completionRequests = (handler w2 req).completionRequests
      ∧ (handler w1 req).completionRequests
          = [some (completionConfig (deriveMessages r.data).written)]
      ∧ (handler w1 req).upstreamCalls
          = [upstreamRequest w1 (completionConfig (deriveMessages r.data))]
      ∧ (handler w1 req).sentMessages = (handler w2 req).sentMessages
      ∧ (handler w1 req).upstreamCalls = (handler w2 req).upstreamCalls := by
  rw [handler_of_lookup hl1 he, handler_of_lookup hl2 he]
  simp only [completionRequests_forwardedRun, sentMessages_forwardedRun,
    upstreamCalls_forwardedRun, upstreamRequest_congr henv, and_self]

/-- C14 on scenario A run twice, the upstream answering 200 the first time
and 429 the second. -/
theorem request_assembly_deterministic_witness :
    (handler (worldWith (.obj [("prompt_id", .str "abc")]) (recordWith (.arr [whyDidIFail]))
        (.ok { status := 200, headers := [], body := "data: [DONE]" })) postAbc).upstreamCalls
      = (handler (worldWith (.obj [("prompt_id", .str "abc")]) (recordWith (.arr [whyDidIFail]))
        (.ok rateLimited)) postAbc).upstreamCalls :=
  (request_assembly_deterministic
    (worldWith (.obj [("prompt_id", .str "abc")]) (recordWith (.arr [whyDidIFail]))
      (.ok { status := 200, headers := [], body := "data: [DONE]" }))
    (worldWith (.obj [("prompt_id", .str "abc")]) (recordWith (.arr [whyDidIFail]))
      (.ok rateLimited))
    postAbc testClient testClient (promptQuery (.json (.str "abc")))
    (promptQuery (.json (.str "abc"))) (recordWith (.arr [whyDidIFail])) (by decide)
    (lookup_mem_worldWith _ _ _ _ _ (by decide) rfl)
    (lookup_mem_worldWith _ _ _ _ _ (by decide) rfl) rfl rfl).2.2.2.2

/-- C15: two non-OPTIONS requests with parseable bodies, differing arbitrarily
in method, headers and body, whose store lookups return the same error-free
record under the same configuration, lead to the same upstream request: the
one built from that record alone. -/
theorem caller_input_noninterference (w1 w2 : World) (req1 req2 : Request)
    (parsed1 parsed2 : Json) (c1 c2 : SupabaseClient) (q1 q2 : List QueryStep)
    (r : StoreResult)
    (_hm1 : req1.method ≠ "OPTIONS") (_hm2 : req2.method ≠ "OPTIONS")
    (_hp1 : w1.jsonParse req1.body = some parsed1)
    (_hp2 : w2.jsonParse req2.body = some parsed2)
    (hl1 : Event.storeLookup c1 q1 r ∈ (handler w1 req1).trace)
    (hl2 : Event.storeLookup c2 q2 r ∈ (handler w2 req2).trace)
    (he : r.error = none)
    (henv : w1.env = w2.env) :
    (handler w1 req1).upstreamCalls = (handler w2 req2).upstreamCalls
      ∧ (handler w1 req1).upstreamCalls
          = [upstreamRequest w1 (completionConfig (deriveMessages r.data))] := by
  rw [handler_of_lookup hl1 he, handler_of_lookup hl2 he]
  simp only [upstreamCalls_forwardedRun, upstreamRequest_congr henv, and_self]

/-- C15 on a POST for "abc" and a PUT with a header, the id "xyz" and the
extra body properties `model` and `temperature`. -/
theorem caller_input_noninterference_witness :
    (handler (worldWith (.obj [("prompt_id", .str "abc")]) (recordWith (.arr [whyDidIFail]))
        (.ok rateLimited)) postAbc).upstreamCalls
      = (handler (worldWith bodyWithExtras (recordWith (.arr [whyDidIFail]))
        (.ok rateLimited)) putWithExtras).upstreamCalls :=
  (caller_input_noninterference
    (worldWith (.obj [("prompt_id", .str "abc")]) (recordWith (.arr [whyDidIFail]))
      (.ok rateLimited))
    (worldWith bodyWithExtras (recordWith (.arr [whyDidIFail])) (.ok rateLimited))
    postAbc putWithExtras (.obj [("prompt_id", .str "abc")]) bodyWithExtras
    testClient testClient (promptQuery (.json (.str "abc"))) (promptQuery (.json (.str "xyz")))
    (recordWith (.arr [whyDidIFail])) (by decide) (by decide) rfl rfl
    (lookup_mem_worldWith _ _ _ _ _ (by decide) rfl)
    (lookup_mem_worldWith _ _ _ _ _ (by decide) rfl) rfl rfl).1

/-! ## The fallback (claims C16 and C17) -/

/-- C16: after a store lookup without error, whatever `data` is, the
derivation of `messages` yields a value, which is not `null`, and the handler
issues the upstream call with it; when `data` is `null` or `undefined` the
property read throws and `messages` is the literal of the `catch` branch. -/
theorem derive_messages_never_raises (w : World) (req : Request) (c : SupabaseClient)
    (q : List QueryStep) (r : StoreResult)
    (hl : Event.storeLookup c q r ∈ (handler w req).trace)
    (he : r.error = none) :
    (handler w req).sentMessages = [some (deriveMessages r.data).written]
      ∧ deriveMessages r.data ≠ .null
      ∧ (handler w req).upstreamCalls
          = [upstreamRequest w (completionConfig (deriveMessages r.data))]
      ∧ (r.data = .undefined ∨ r.data = .json .null →
          r.data.getProp "messages" = .error .typeError
            ∧ deriveMessages r.data = catchDefault) := by
  rw [handler_of_lookup hl he, sentMessages_forwardedRun, upstreamCalls_forwardedRun]
  refine ⟨rfl, (deriveMessages_cases r.data).1, rfl, ?_⟩
  rintro (hd | hd) <;> rw [hd] <;> exact ⟨rfl, rfl⟩

/-- C16 on a store that answers `data: null` without error. -/
theorem derive_messages_never_raises_witness :
    (handler (worldReturning { data := .json .null, error := none }) postAbc).sentMessages
      = [some catchDefault] :=
  (derive_messages_never_raises (worldReturning { data := .json .null, error := none }) postAbc
    testClient (promptQuery (.json (.str "abc"))) { data := .json .null, error := none }
    (lookup_mem_worldReturning _) rfl).1

/-- C17: the literal on the right of `??` and the literal of the `catch`
branch are equal; each is a list of exactly one element, an object of role
"system" whose content is one fixed text; the derivation yields it for
`data` undefined, `data` null, a record without `messages` and a record whose
`messages` is null alike. -/
theorem fallback_is_one_constant :
    nullishDefault = catchDefault
      ∧ (∃ notice, nullishDefault = .arr [.obj [("role", .str "system"), ("content", .str notice)]]
          ∧ catchDefault = .arr [.obj [("role", .str "system"), ("content", .str notice)]])
      ∧ deriveMessages .undefined = catchDefault
      ∧ deriveMessages (.json .null) = catchDefault
      ∧ deriveMessages (.json (.obj [])) = nullishDefault
      ∧ deriveMessages (.json (.obj [("messages", .null)])) = nullishDefault :=
  ⟨rfl, ⟨_, rfl, rfl⟩, rfl, rfl, rfl, rfl⟩

/-! ## Outbound effects (claims C18 to C20) -/

/-- C18: on a non-OPTIONS request with a parseable body whose store lookup
reports no error, the outbound calls of the handler are exactly one store
lookup followed by one upstream POST; and on every path of every run, each
store call is the read chain `promptQuery`, never a write. -/
theorem one_read_then_one_post (w : World) (req : Request) (parsed : Json)
    (c : SupabaseClient) (q : List QueryStep) (r : StoreResult)
    (_hm : req.method ≠ "OPTIONS")
    (_hp : w.jsonParse req.body = some parsed)
    (hl : Event.storeLookup c q r ∈ (handler w req).trace)
    (he : r.error = none) :
    (handler w req).trace
        = [Event.storeLookup c q r,
           Event.fetch (upstreamRequest w (completionConfig (deriveMessages r.data)))
             (w.fetch (upstreamRequest w (completionConfig (deriveMessages r.data))))]
      ∧ (handler w req).storeLookups = [q]
      ∧ (handler w req).upstreamCalls
          = [upstreamRequest w (completionConfig (deriveMessages r.data))]
      ∧ (upstreamRequest w (completionConfig (deriveMessages r.data))).method = "POST"
      ∧ ∀ (w2 : World) (req2 : Request) (c2 : SupabaseClient) (q2 : List QueryStep)
          (r2 : StoreResult), Event.storeLookup c2 q2 r2 ∈ (handler w2 req2).trace →
            ∃ pid, q2 = promptQuery pid := by
  refine ⟨?_, ?_, ?_, rfl, ?_⟩
  · rw [handler_of_lookup hl he]
    rfl
  · rw [handler_of_lookup hl he, storeLookups_forwardedRun]
  · rw [handler_of_lookup hl he, upstreamCalls_forwardedRun]
  · intro w2 req2 c2 q2 r2 h2
    obtain ⟨_, pid, -, -, hq⟩ := query_of_lookup h2
    exact ⟨pid, hq⟩

/-- C18 on scenario A: one lookup, then one upstream request. -/
theorem one_read_then_one_post_witness :
    (handler (worldReturning (recordWith (.arr [whyDidIFail]))) postAbc).storeLookups
        = [promptQuery (.json (.str "abc"))]
      ∧ (handler (worldReturning (recordWith (.arr [whyDidIFail]))) postAbc).upstreamCalls
        = [upstreamRequest (worldReturning (recordWith (.arr [whyDidIFail])))
            (completionConfig (.arr [whyDidIFail]))] :=
  have h := one_read_then_one_post (worldReturning (recordWith (.arr [whyDidIFail]))) postAbc
    (.obj [("prompt_id", .str "abc")]) testClient (promptQuery (.json (.str "abc")))
    (recordWith (.arr [whyDidIFail])) (by decide) rfl (lookup_mem_worldReturning _) rfl
  ⟨h.2.1, h.2.2.1⟩

/-- C19: whenever the handler issues an upstream call, the trace is a store
lookup followed by that call: the lookup was issued first, the store answered
it without error, and the body of the upstream request is the serialisation
of the completion request built from that answer. -/
theorem upstream_after_lookup (w : World) (req : Request) (rq : FetchRequest)
    (res : Except Thrown Response)
    (h : Event.fetch rq res ∈ (handler w req).trace) :
    ∃ c q r, (handler w req).trace = [Event.storeLookup c q r, Event.fetch rq res]
      ∧ r = w.storeLookup c q
      ∧ r.error = none
      ∧ rq.body = (completionConfig (deriveMessages r.data)).stringify := by
  obtain ⟨c, q, r, he, hl, hrun, hrq, hres⟩ := forwardedRun_of_fetch h
  refine ⟨c, q, r, ?_, result_of_lookup hl, he, ?_⟩
  · rw [hrun, hres, hrq]
    rfl
  · rw [hrq]
    rfl

/-- C19 on the upstream call of scenario A. -/
theorem upstream_after_lookup_witness :
    ∃ c q r, (handler (worldReturning (recordWith (.arr [whyDidIFail]))) postAbc).trace
        = [Event.storeLookup c q r,
           Event.fetch (upstreamRequest (worldReturning (recordWith (.arr [whyDidIFail])))
              (completionConfig (.arr [whyDidIFail])))
             (.ok { status := 200, headers := [], body := "data: [DONE]" })]
      ∧ r = (worldReturning (recordWith (.arr [whyDidIFail]))).storeLookup c q
      ∧ r.error = none
      ∧ (upstreamRequest (worldReturning (recordWith (.arr [whyDidIFail])))
          (completionConfig (.arr [whyDidIFail]))).body
          = (completionConfig (deriveMessages r.data)).stringify :=
  upstream_after_lookup (worldReturning (recordWith (.arr [whyDidIFail]))) postAbc _ _
    (fetch_mem_worldReturning (recordWith (.arr [whyDidIFail])) rfl)

/-- C20: every store lookup the handler issues on a non-OPTIONS request is
the chain from "prompts", select "*", eq "id" with the `prompt_id` property
of the parsed body, select "messages", single: a read of the "prompts"
collection, filtered by id equal to that `prompt_id` only, selecting
`messages`, asking for a single record.  Another request whose parsed body
has the same `prompt_id` leads to the same query. -/
theorem lookup_query_shape (w : World) (req : Request) (c : SupabaseClient)
    (q : List QueryStep) (r : StoreResult)
    (_hm : req.method ≠ "OPTIONS")
    (hl : Event.storeLookup c q r ∈ (handler w req).trace) :
    ∃ parsed pid, w.jsonParse req.body = some parsed
      ∧ (JsVal.json parsed).getProp "prompt_id" = .ok pid
      ∧ q = [.fromTable "prompts", .select "*", .eq "id" pid, .select "messages", .single]
      ∧ queryTable q = some "prompts"
      ∧ queryFilters q = [("id", pid)]
      ∧ querySelected q = some "messages"
      ∧ querySingle q = true
      ∧ ∀ (w2 : World) (req2 : Request) (parsed2 : Json) (c2 : SupabaseClient)
          (q2 : List QueryStep) (r2 : StoreResult),
          Event.storeLookup c2 q2 r2 ∈ (handler w2 req2).trace →
          w2.jsonParse req2.body = some parsed2 →
          (JsVal.json parsed2).getProp "prompt_id" = .ok pid → q2 = q := by
  obtain ⟨parsed, pid, hp, hg, hq⟩ := query_of_lookup hl
  subst hq
  refine ⟨parsed, pid, hp, hg, rfl, rfl, rfl, rfl, rfl, ?_⟩
  intro w2 req2 parsed2 c2 q2 r2 hl2 hp2 hg2
  obtain ⟨parsed3, pid3, hp3, hg3, hq3⟩ := query_of_lookup hl2
  rw [hp2] at hp3
  cases hp3
  rw [hg2] at hg3
  cases hg3
  exact hq3

/-- C20 on scenario A: the query filters on id "abc". -/
theorem lookup_query_shape_witness :
    ∃ parsed pid,
      (worldReturning (recordWith (.arr [whyDidIFail]))).jsonParse postAbc.body = some parsed
      ∧ (JsVal.json parsed).getProp "prompt_id" = .ok pid
      ∧ promptQuery (.json (.str "abc"))
          = [.fromTable "prompts", .select "*", .eq "id" pid, .select "messages", .single]
      ∧ queryTable (promptQuery (.json (.str "abc"))) = some "prompts"
      ∧ queryFilters (promptQuery (.json (.str "abc"))) = [("id", pid)]
      ∧ querySelected (promptQuery (.json (.str "abc"))) = some "messages"
      ∧ querySingle (promptQuery (.json (.str "abc"))) = true
      ∧ ∀ (w2 : World) (req2 : Request) (parsed2 : Json) (c2 : SupabaseClient)
          (q2 : List QueryStep) (r2 : StoreResult),
          Event.storeLookup c2 q2 r2 ∈ (handler w2 req2).trace →
          w2.jsonParse req2.body = some parsed2 →
          (JsVal.json parsed2).getProp "prompt_id" = .ok pid →
          q2 = promptQuery (.json (.str "abc")) :=
  lookup_query_shape (worldReturning (recordWith (.arr [whyDidIFail]))) postAbc testClient
    (promptQuery (.json (.str "abc"))) (recordWith (.arr [whyDidIFail])) (by decide)
    (lookup_mem_worldReturning _)

/-! ## Lemmas for the remaining cases -/

theorem getProp_error {data : JsVal} {key : String} {e : Thrown}
    (h : data.getProp key = .error e) : data = .undefined ∨ data = .json .null := by
  cases data with
  | undefined => exact Or.inl rfl
  | json j =>
    cases j with
    | null => exact Or.inr rfl
    | bool b => simp only [JsVal.getProp] at h; split at h <;> cases h
    | num q => simp only [JsVal.getProp] at h; split at h <;> cases h
    | infinity negative => simp only [JsVal.getProp] at h; split at h <;> cases h
    | str s => simp only [JsVal.getProp] at h; split at h <;> cases h
    | arr items => simp only [JsVal.getProp] at h; split at h <;> cases h
    | obj props => simp only [JsVal.getProp] at h; split at h <;> cases h

theorem getProp_ok_of_ne_null {parsed : Json} (key : String) (hn : parsed ≠ .null) :
    ∃ pid, (JsVal.json parsed).getProp key = .ok pid := by
  cases h : (JsVal.json parsed).getProp key with
  | ok pid => exact ⟨pid, rfl⟩
  | error e =>
    rcases getProp_error h with h1 | h1
    · cases h1
    · cases h1
      exact absurd rfl hn

/-- The value assigned to `messages` is a fallback literal standing in for
the stored value exactly when the record or its `messages` value is `null` or
`undefined`. -/
theorem fallback_in_place_iff (data : JsVal) :
    (deriveMessages data = nullishDefault
        ∧ data.getProp "messages" ≠ .ok (.json (deriveMessages data))) ↔
      (data = .undefined ∨ data = .json .null
        ∨ data.getProp "messages" = .ok .undefined
        ∨ data.getProp "messages" = .ok (.json .null)) := by
  constructor
  · rintro ⟨-, hne⟩
    cases hg : data.getProp "messages" with
    | error e =>
      rcases getProp_error hg with h1 | h1
      · exact Or.inl h1
      · exact Or.inr (Or.inl h1)
    | ok v =>
      cases v with
      | undefined => exact Or.inr (Or.inr (Or.inl rfl))
      | json j =>
        by_cases hj : j = .null
        · subst hj
          exact Or.inr (Or.inr (Or.inr rfl))
        · exact absurd (by rw [deriveMessages_of_value hg hj]; exact hg) hne
  · intro h
    refine ⟨deriveMessages_of_nullish h, ?_⟩
    rw [deriveMessages_of_nullish h]
    rcases h with h | h | h | h
    · subst h
      simp [JsVal.getProp]
    · subst h
      simp [JsVal.getProp]
    · simp [h]
    · simp [h, nullishDefault]

/-- A response returned on the substantive path is the answer of the
upstream call. -/
theorem fetch_of_ok_outcome {w : World} {req : Request} {resp : Response}
    (hm : req.method ≠ "OPTIONS") (h : (handler w req).outcome = .ok resp) :
    ∃ rq, Event.fetch rq (.ok resp) ∈ (handler w req).trace ∧ w.fetch rq = .ok resp := by
  cases hp : w.jsonParse req.body with
  | none => simp [handler, hm, hp] at h
  | some parsed =>
    cases hg : (JsVal.json parsed).getProp "prompt_id" with
    | error e => simp [handler, hm, hp, hg] at h
    | ok prompt_id =>
      cases hc : w.createClient ((w.env "SUPABASE_URL").getD "")
          ((w.env "SUPABASE_ANON_KEY").getD "") with
      | error e => simp [handler, hm, hp, hg, hc] at h
      | ok client =>
        cases ht : (w.storeLookup client (promptQuery prompt_id)).errorVal.truthy with
        | true => simp [handler, hm, hp, hg, hc, ht] at h
        | false =>
          simp only [handler, hm, hp, hg, hc, ht] at h ⊢
          simp only [if_false, Bool.false_eq_true] at h ⊢
          exact ⟨_, by rw [h]; simp, h⟩

theorem createClient_of_library {w : World} (h : w.createClient = createClient)
    (url key : String) : w.createClient url key = createClient url key := by
  rw [h]

/-! ## The preflight body (claim C21) -/

/-- C21, as stated, fails: on an OPTIONS request the handler returns a
response whose body is the text "ok", which is not empty. -/
theorem options_body_not_empty :
    optionsRequest.method = "OPTIONS"
      ∧ (handler worldRejectingBody optionsRequest).outcome
          = .ok { status := 200
                  headers := corsHeaders ++ [("content-type", "text/plain;charset=UTF-8")]
                  body := "ok" }
      ∧ ("ok" : String) ≠ "" :=
  ⟨rfl, rfl, by decide⟩

/-- C21, amended: on every request whose method is OPTIONS, the body of the
returned response is the placeholder text "ok". -/
theorem options_body_is_ok (w : World) (req : Request) (h : req.method = "OPTIONS") :
    ∃ resp, (handler w req).outcome = .ok resp ∧ resp.body = "ok" := by
  refine ⟨Response.create "ok" { headers := corsHeaders }, ?_, rfl⟩
  simp [handler, h]

/-- The amended C21 on an OPTIONS request whose body is not JSON. -/
theorem options_body_is_ok_witness :
    ∃ resp, (handler worldRejectingBody optionsRequest).outcome = .ok resp
      ∧ resp.body = "ok" :=
  options_body_is_ok worldRejectingBody optionsRequest rfl

/-! ## The cast (claim C23) -/

/-- C23: after a store lookup without error, a `messages` value that is
neither `null` nor `undefined`, of whatever shape, is the value assigned to
`messages`, unchanged: the property read does not throw, no fallback literal
is substituted, and the one upstream request is the serialisation of the
completion request holding that value (which writes a non-finite number as
`null` and everything else as it is).  A fallback literal stands in for the
stored value if and only if the record or its `messages` value is `null` or
`undefined`, and the upstream request then carries the fallback. -/
theorem cast_checks_nothing (w : World) (req : Request) (c : SupabaseClient)
    (q : List QueryStep) (r : StoreResult)
    (hl : Event.storeLookup c q r ∈ (handler w req).trace)
    (he : r.error = none) :
    (∀ v, r.data.getProp "messages" = .ok (.json v) → v ≠ .null →
        deriveMessages r.data = v
          ∧ (completionConfig (deriveMessages r.data)).messages = v
          ∧ (handler w req).upstreamCalls = [upstreamRequest w (completionConfig v)]
          ∧ (handler w req).sentMessages = [some v.written])
      ∧ ((deriveMessages r.data = nullishDefault
            ∧ r.data.getProp "messages" ≠ .ok (.json (deriveMessages r.data))) ↔
          (r.data = .undefined ∨ r.data = .json .null
            ∨ r.data.getProp "messages" = .ok .undefined
            ∨ r.data.getProp "messages" = .ok (.json .null)))
      ∧ ((r.data = .undefined ∨ r.data = .json .null
            ∨ r.data.getProp "messages" = .ok .undefined
            ∨ r.data.getProp "messages" = .ok (.json .null)) →
          (handler w req).upstreamCalls = [upstreamRequest w (completionConfig nullishDefault)]
            ∧ (handler w req).sentMessages = [some nullishDefault]) := by
  rw [handler_of_lookup hl he, sentMessages_forwardedRun, upstreamCalls_forwardedRun]
  refine ⟨?_, fallback_in_place_iff r.data, ?_⟩
  · intro v hd hv
    rw [deriveMessages_of_value hd hv]
    exact ⟨rfl, rfl, rfl, rfl⟩
  · intro h
    rw [deriveMessages_of_nullish h, written_nullishDefault]
    exact ⟨rfl, rfl⟩

/-- C23 on records whose `messages` is a number, an object, and the
non-finite number read from `1e400`: each is the value assigned to
`messages`; the body carries the first two as they are and the third as
`null`. -/
theorem cast_checks_nothing_witness :
    (deriveMessages (recordWith (.num 7)).data = .num 7
        ∧ (handler (worldReturning (recordWith (.num 7))) postAbc).sentMessages
            = [some (.num 7)])
      ∧ (deriveMessages (recordWith (.obj [("role", .str "user")])).data
            = .obj [("role", .str "user")]
        ∧ (handler (worldReturning (recordWith (.obj [("role", .str "user")])))
            postAbc).sentMessages = [some (.obj [("role", .str "user")])])
      ∧ (deriveMessages recordWithInfinity.data = .infinity false
        ∧ (handler (worldReturning recordWithInfinity) postAbc).sentMessages
            = [some .null]) :=
  have h1 := (cast_checks_nothing (worldReturning (recordWith (.num 7))) postAbc testClient
      (promptQuery (.json (.str "abc"))) (recordWith (.num 7))
      (lookup_mem_worldReturning _) rfl).1 (.num 7) rfl (by simp)
  have h2 := (cast_checks_nothing (worldReturning (recordWith (.obj [("role", .str "user")])))
      postAbc testClient (promptQuery (.json (.str "abc")))
      (recordWith (.obj [("role", .str "user")]))
      (lookup_mem_worldReturning _) rfl).1 (.obj [("role", .str "user")]) rfl (by simp)
  have h3 := (cast_checks_nothing (worldReturning recordWithInfinity) postAbc testClient
      (promptQuery (.json (.str "abc"))) recordWithInfinity
      (lookup_mem_worldReturning _) rfl).1 (.infinity false) rfl (by simp)
  ⟨⟨h1.1, h1.2.2.2⟩, ⟨h2.1, h2.2.2.2⟩, ⟨h3.1, h3.2.2.2⟩⟩

/-! ## The method test (claim C24) -/

/-- C24, as stated, fails: a DELETE whose body is the JSON text `null` is not
a preflight and its body parses, yet the destructuring of `null` throws a
`TypeError` and no store lookup is issued. -/
theorem parsed_null_issues_no_lookup :
    deleteNull.method ≠ "OPTIONS"
      ∧ (worldWith .null (recordWith (.arr [whyDidIFail])) (.ok rateLimited)).jsonParse
          deleteNull.body = some .null
      ∧ (handler (worldWith .null (recordWith (.arr [whyDidIFail])) (.ok rateLimited))
          deleteNull).trace = []
      ∧ (handler (worldWith .null (recordWith (.arr [whyDidIFail])) (.ok rateLimited))
          deleteNull).storeLookups = []
      ∧ (handler (worldWith .null (recordWith (.arr [whyDidIFail])) (.ok rateLimited))
          deleteNull).outcome = .error .typeError :=
  ⟨by decide, rfl, rfl, rfl, rfl⟩

/-- C24, amended: the preflight test compares the method with "OPTIONS"
exactly; a request with any other method, a differently-cased "options"
included, has its body parsed as JSON: if parsing fails the handler fails
with the reader's error, and if it yields a value other than `null` the store
lookup is issued once the store client is created. -/
theorem other_methods_take_substantive_path (w : World) (req : Request)
    (hm : req.method ≠ "OPTIONS") :
    (w.jsonParse req.body = none → (handler w req).outcome = .error .syntaxError)
      ∧ (∀ parsed client, w.jsonParse req.body = some parsed → parsed ≠ .null →
          w.createClient ((w.env "SUPABASE_URL").getD "")
            ((w.env "SUPABASE_ANON_KEY").getD "") = .ok client →
          ∃ pid, (JsVal.json parsed).getProp "prompt_id" = .ok pid
            ∧ (handler w req).storeLookups = [promptQuery pid]) := by
  refine ⟨fun hp => by simp [handler, hm, hp], ?_⟩
  intro parsed client hp hn hc
  obtain ⟨pid, hg⟩ := getProp_ok_of_ne_null "prompt_id" hn
  refine ⟨pid, hg, ?_⟩
  have hl := handler_of_client hm hp hg hc
  cases he : (w.storeLookup client (promptQuery pid)).error with
  | none => rw [handler_of_lookup hl he, storeLookups_forwardedRun]
  | some e => rw [handler_of_lookup_error hl he]; simp [Run.storeLookups]

/-- The amended C24 on a request whose method is "options" in lower case. -/
theorem other_methods_take_substantive_path_witness :
    ∃ pid, (JsVal.json (.obj [("prompt_id", .str "abc")])).getProp "prompt_id" = .ok pid
      ∧ (handler (worldReturning (recordWith (.arr [whyDidIFail])))
          lowercaseOptions).storeLookups = [promptQuery pid] :=
  (other_methods_take_substantive_path (worldReturning (recordWith (.arr [whyDidIFail])))
    lowercaseOptions (by decide)).2 (.obj [("prompt_id", .str "abc")]) testClient rfl (by simp)
    rfl

theorem getProp_prompt_id {parsed : Json} (hn : parsed ≠ .null) :
    (JsVal.json parsed).getProp "prompt_id" = .ok (promptIdOf parsed) := by
  cases parsed <;> first
    | exact absurd rfl hn
    | (simp only [JsVal.getProp, promptIdOf]; split <;> simp_all)

/-! ## Headers, configuration and `prompt_id` (claims C25 to C27) -/

/-- C25: on a non-OPTIONS request, a response returned by the handler is the
answer of the upstream call: its headers are the upstream response's headers,
with nothing added, so Access-Control-Allow-Origin is on it exactly when the
upstream response carries it. -/
theorem substantive_response_headers (w : World) (req : Request) (resp : Response)
    (hm : req.method ≠ "OPTIONS")
    (h : (handler w req).outcome = .ok resp) :
    ∃ rq up, Event.fetch rq (.ok up) ∈ (handler w req).trace
      ∧ w.fetch rq = .ok up
      ∧ resp = up
      ∧ resp.headers = up.headers
      ∧ ∀ v, ("Access-Control-Allow-Origin", v) ∈ resp.headers
          ↔ ("Access-Control-Allow-Origin", v) ∈ up.headers := by
  obtain ⟨rq, hmem, hf⟩ := fetch_of_ok_outcome hm h
  exact ⟨rq, resp, hmem, hf, rfl, rfl, fun _ => Iff.rfl⟩

/-- C25 on an upstream answer without CORS headers: the response returned has
the upstream's one header. -/
theorem substantive_response_headers_witness :
    ∃ rq up,
      Event.fetch rq (.ok up)
        ∈ (handler (worldWith (.obj [("prompt_id", .str "abc")])
            (recordWith (.arr [whyDidIFail])) (.ok rateLimited)) postAbc).trace
      ∧ (worldWith (.obj [("prompt_id", .str "abc")]) (recordWith (.arr [whyDidIFail]))
          (.ok rateLimited)).fetch rq = .ok up
      ∧ rateLimited = up
      ∧ rateLimited.headers = up.headers
      ∧ ∀ v, ("Access-Control-Allow-Origin", v) ∈ rateLimited.headers
          ↔ ("Access-Control-Allow-Origin", v) ∈ up.headers :=
  substantive_response_headers
    (worldWith (.obj [("prompt_id", .str "abc")]) (recordWith (.arr [whyDidIFail]))
      (.ok rateLimited))
    postAbc rateLimited (by decide) rfl

/-- C26, as stated, fails: with `SUPABASE_URL` unset the handler calls
`createClient` with the empty string, supabase-js refuses it, and the handler
fails with that error before any outbound call: no client is created and the
missing variable does make the handler fail. -/
theorem missing_supabase_url_fails :
    postAbc.method ≠ "OPTIONS"
      ∧ (worldMissing "SUPABASE_URL" (recordWith (.arr [whyDidIFail]))).env "SUPABASE_URL" = none
      ∧ (worldMissing "SUPABASE_URL" (recordWith (.arr [whyDidIFail]))).createClient ""
          "test" = .error (.failure "supabaseUrl is required.")
      ∧ (handler (worldMissing "SUPABASE_URL" (recordWith (.arr [whyDidIFail])))
          postAbc).outcome = .error (.failure "supabaseUrl is required.")
      ∧ (handler (worldMissing "SUPABASE_URL" (recordWith (.arr [whyDidIFail])))
          postAbc).trace = [] :=
  ⟨by decide, rfl, rfl, rfl, rfl⟩

/-- C26, amended: on a non-OPTIONS request whose body yields a `prompt_id`,
with clients created as supabase-js does: when `SUPABASE_URL` is unset
`createClient` is called with the empty string in its place and the handler
fails with "supabaseUrl is required." before any outbound call; when it is
set and `SUPABASE_ANON_KEY` is unset, likewise with "supabaseKey is
required."; when `OPENAI_API_KEY` is unset the handler does not fail for it:
after an error-free lookup the upstream call is issued with the
Authorization header "Bearer undefined". -/
theorem missing_configuration_outcomes (w : World) (req : Request) (parsed : Json)
    (pid : JsVal)
    (hm : req.method ≠ "OPTIONS")
    (hp : w.jsonParse req.body = some parsed)
    (hg : (JsVal.json parsed).getProp "prompt_id" = .ok pid)
    (hlib : w.createClient = createClient) :
    (w.env "SUPABASE_URL" = none →
        (handler w req).outcome = .error (.failure "supabaseUrl is required.")
          ∧ (handler w req).trace = [])
      ∧ (∀ url, w.env "SUPABASE_URL" = some url → url ≠ "" →
          w.env "SUPABASE_ANON_KEY" = none →
          (handler w req).outcome = .error (.failure "supabaseKey is required.")
            ∧ (handler w req).trace = [])
      ∧ (w.env "OPENAI_API_KEY" = none → ∀ client,
        w.createClient ((w.env "SUPABASE_URL").getD "")
          ((w.env "SUPABASE_ANON_KEY").getD "") = .ok client →
        (w.storeLookup client (promptQuery pid)).error = none →
        (handler w req).upstreamCalls.map (fun rq => rq.headers)
          = [[("Authorization", "Bearer undefined"), ("Content-Type", "application/json")]]) := by
  refine ⟨?_, ?_, ?_⟩
  · intro hu
    have hc : w.createClient ((w.env "SUPABASE_URL").getD "")
        ((w.env "SUPABASE_ANON_KEY").getD "") = .error (.failure "supabaseUrl is required.") := by
      rw [createClient_of_library hlib, hu]
      simp [createClient]
    simp [handler, hm, hp, hg, hc]
  · intro url hu hne hk
    have hc : w.createClient ((w.env "SUPABASE_URL").getD "")
        ((w.env "SUPABASE_ANON_KEY").getD "") = .error (.failure "supabaseKey is required.") := by
      rw [createClient_of_library hlib, hu, hk]
      simp [createClient, hne]
    simp [handler, hm, hp, hg, hc]
  · intro hk client hc he
    rw [handler_of_lookup (handler_of_client hm hp hg hc) he, upstreamCalls_forwardedRun]
    simp [upstreamRequest, hk, templateString]

/-- The amended C26 with `SUPABASE_URL` unset, and with `OPENAI_API_KEY`
unset. -/
theorem missing_configuration_outcomes_witness :
    ((handler (worldMissing "SUPABASE_URL" (recordWith (.arr [whyDidIFail])))
          postAbc).outcome = .error (.failure "supabaseUrl is required.")
        ∧ (handler (worldMissing "SUPABASE_URL" (recordWith (.arr [whyDidIFail])))
          postAbc).trace = [])
      ∧ (handler (worldMissing "OPENAI_API_KEY" (recordWith (.arr [whyDidIFail])))
          postAbc).upstreamCalls.map (fun rq => rq.headers)
        = [[("Authorization", "Bearer undefined"), ("Content-Type", "application/json")]] :=
  ⟨(missing_configuration_outcomes (worldMissing "SUPABASE_URL" (recordWith (.arr [whyDidIFail])))
      postAbc (.obj [("prompt_id", .str "abc")]) (.json (.str "abc")) (by decide) rfl rfl
      rfl).1 rfl,
   (missing_configuration_outcomes
      (worldMissing "OPENAI_API_KEY" (recordWith (.arr [whyDidIFail])))
      postAbc (.obj [("prompt_id", .str "abc")]) (.json (.str "abc")) (by decide) rfl rfl
      rfl).2.2 rfl testClient rfl rfl⟩

/-- C27: on a non-OPTIONS request whose body parses to a value other than
`null`, extraction does not fail and, once the store client is created, the
one store lookup is issued with the body's `prompt_id` property, whatever its
type and `undefined` when absent, as the value of the only filter, on id; a
body that parses to `null` fails with a `TypeError` before any outbound
call. -/
theorem prompt_id_not_validated (w : World) (req : Request) (parsed : Json)
    (hm : req.method ≠ "OPTIONS")
    (hp : w.jsonParse req.body = some parsed) :
    (parsed ≠ .null →
        (JsVal.json parsed).getProp "prompt_id" = .ok (promptIdOf parsed)
          ∧ ∀ client, w.createClient ((w.env "SUPABASE_URL").getD "")
              ((w.env "SUPABASE_ANON_KEY").getD "") = .ok client →
            (handler w req).storeLookups = [promptQuery (promptIdOf parsed)]
              ∧ queryFilters (promptQuery (promptIdOf parsed)) = [("id", promptIdOf parsed)])
      ∧ (parsed = .null →
          (handler w req).outcome = .error .typeError ∧ (handler w req).trace = []) := by
  refine ⟨?_, ?_⟩
  · intro hn
    refine ⟨getProp_prompt_id hn, ?_⟩
    intro client hc
    refine ⟨?_, rfl⟩
    have hl := handler_of_client hm hp (getProp_prompt_id hn) hc
    cases he : (w.storeLookup client (promptQuery (promptIdOf parsed))).error with
    | none => rw [handler_of_lookup hl he, storeLookups_forwardedRun]
    | some e => rw [handler_of_lookup_error hl he]; simp [Run.storeLookups]
  · intro hn
    subst hn
    simp [handler, hm, hp, JsVal.getProp]

/-- C27 on bodies whose `prompt_id` is a number and an object. -/
theorem prompt_id_not_validated_witness :
    (handler (worldWith (.obj [("prompt_id", .num 42)]) (recordWith (.arr [whyDidIFail]))
        (.ok rateLimited)) postAbc).storeLookups = [promptQuery (.json (.num 42))]
      ∧ (handler (worldWith (.obj [("prompt_id", .obj [("a", .null)])])
          (recordWith (.arr [whyDidIFail])) (.ok rateLimited)) postAbc).storeLookups
        = [promptQuery (.json (.obj [("a", .null)]))] :=
  ⟨(((prompt_id_not_validated
      (worldWith (.obj [("prompt_id", .num 42)]) (recordWith (.arr [whyDidIFail]))
        (.ok rateLimited))
      postAbc (.obj [("prompt_id", .num 42)]) (by decide) rfl).1 (by simp)).2 testClient rfl).1,
   (((prompt_id_not_validated
      (worldWith (.obj [("prompt_id", .obj [("a", .null)])]) (recordWith (.arr [whyDidIFail]))
        (.ok rateLimited))
      postAbc (.obj [("prompt_id", .obj [("a", .null)])]) (by decide) rfl).1
        (by simp)).2 testClient rfl).1⟩

end OpenaiFeedback
